import Mathlib

/-!
Verification of the regobslib structured-data mapping engine.

This file shallowly embeds the core of the `regobslib` Python library
(`submit.py`, `misc.py`, `aps.py`, `connection.py`) in Lean 4 and proves
properties of the embedding.

Modelling conventions:
* Wire JSON is the inductive `Json` below; Python `dict` literals become
  ordered association lists, preserving the source's key order.
* Python `float` is modelled as `ℚ` (the conversions at issue are exact
  divisions and multiplications by 100, so rational arithmetic captures
  them; the spec's 1e-9 tolerance is subsumed by exactness).
* Python `datetime` values are modelled by their ISO-format strings;
  `isoformat()` is the identity and `fromisoformat` accepts any string.
* Python `IntEnum` members are modelled by their integer wire codes; the
  enum vocabularies appear as explicit code lists where the source
  consults them (`_convert`'s strict-coercion-with-fallback).
* Fallible Python code (raised exceptions) is modelled with
  `Except String`; the error string names the exception.
* The one genuinely stateful method, `Timeline.assimilate` (which assigns
  `self.treeline`), is modelled by returning the updated receiver next to
  the result; everything else in the core is pure in the source as well.
-/

namespace Regobs

/-! ## Wire JSON model -/

/-- A wire JSON value (`ObsJson` in `submit.py`). Objects are ordered
association lists, mirroring Python dict insertion order. -/
inductive Json where
  | null
  | bool (b : Bool)
  | num (q : ℚ)
  | str (s : String)
  | arr (elems : List Json)
  | obj (members : List (String × Json))

/-- Python truthiness of the `_clean` filter: a value is kept iff it is
not `None` and not `[]` (`v is not None and v != []` in
`Serializable._clean`). An empty dict is kept, as in the source. -/
def isPresent : Json → Bool
  | .null => false
  | .arr [] => false
  | _ => true

/-- `Serializable._clean`: drop the keys whose value is null or an empty
list, keeping order. -/
def clean (l : List (String × Json)) : List (String × Json) :=
  l.filter (fun kv => isPresent kv.2)

mutual
/-- No object anywhere in this JSON tree has a key bound to null or to an
empty list. -/
def noNulls : Json → Bool
  | .arr l => noNullsArr l
  | .obj l => noNullsObj l
  | _ => true
def noNullsArr : List Json → Bool
  | [] => true
  | j :: l => noNulls j && noNullsArr l
def noNullsObj : List (String × Json) → Bool
  | [] => true
  | (_, v) :: l => isPresent v && noNulls v && noNullsObj l
end

theorem noNullsObj_clean (l : List (String × Json)) (h : ∀ kv ∈ l, noNulls kv.2 = true) :
    noNullsObj (clean l) = true := by
  induction l with
  | nil => rfl
  | cons kv t ih =>
    simp only [clean, List.filter] at *
    cases hp : isPresent kv.2 with
    | true =>
      simp only [noNullsObj, Bool.and_eq_true]
      exact ⟨⟨hp, h kv (by simp)⟩, ih (fun x hx => h x (by simp [hx]))⟩
    | false => exact ih (fun x hx => h x (by simp [hx]))

theorem noNullsArr_of_forall (l : List Json) (h : ∀ j ∈ l, noNulls j = true) :
    noNullsArr l = true := by
  induction l with
  | nil => rfl
  | cons j t ih =>
    simp only [noNullsArr, Bool.and_eq_true]
    exact ⟨h j (by simp), ih (fun x hx => h x (by simp [hx]))⟩

theorem noNullsObj_append (a b : List (String × Json)) (ha : noNullsObj a = true)
    (hb : noNullsObj b = true) : noNullsObj (a ++ b) = true := by
  induction a with
  | nil => simpa using hb
  | cons kv t ih =>
    simp only [noNullsObj, Bool.and_eq_true] at ha ⊢
    exact ⟨ha.1, ih ha.2⟩

/-- An optional integer value as wire JSON (`None` becomes null, to be
dropped by `_clean`). -/
def jInt : Option Int → Json
  | some v => .num (v : ℚ)
  | none => .null

def jNum : Option ℚ → Json
  | some v => .num v
  | none => .null

def jStr : Option String → Json
  | some s => .str s
  | none => .null

def jBool : Option Bool → Json
  | some b => .bool b
  | none => .null

theorem noNulls_jInt (o : Option Int) : noNulls (jInt o) = true := by
  cases o <;> rfl

theorem noNulls_jNum (o : Option ℚ) : noNulls (jNum o) = true := by
  cases o <;> rfl

theorem noNulls_jStr (o : Option String) : noNulls (jStr o) = true := by
  cases o <;> rfl

theorem noNulls_jBool (o : Option Bool) : noNulls (jBool o) = true := by
  cases o <;> rfl

/-! ## Python numeric helpers -/

/-- Python `int(x)` on a rational: truncation toward zero. -/
def pyInt (q : ℚ) : Int :=
  if 0 ≤ q then ⌊q⌋ else -⌊-q⌋

/-- Python `round(x, -2)` on an integer: round to the nearest multiple of
100 with ties going to the even multiple (banker's rounding, which is
exact for integer inputs in Python 3). -/
def pyRound100 (x : Int) : Int :=
  if x % 100 < 50 then 100 * (x / 100)
  else if 50 < x % 100 then 100 * (x / 100 + 1)
  else if (x / 100) % 2 = 0 then 100 * (x / 100) else 100 * (x / 100 + 1)

theorem pyRound100_dvd (x : Int) : 100 ∣ pyRound100 x := by
  unfold pyRound100
  split_ifs <;> exact ⟨_, rfl⟩

theorem pyRound100_near (x : Int) : (x - pyRound100 x).natAbs ≤ 50 := by
  unfold pyRound100
  split_ifs <;> omega

theorem pyRound100_mono {x y : Int} (h : x ≤ y) : pyRound100 x ≤ pyRound100 y := by
  have hqq : x / 100 ≤ y / 100 := Int.ediv_le_ediv (by norm_num) h
  unfold pyRound100
  split_ifs <;> omega

/-! ## Elevation (`submit.py`, class `Elevation`) -/

/-- An elevation band. `format` carries the `Elevation.Format` wire code
(ABOVE=1, BELOW=2, SANDWICH=3, MIDDLE=4), kept as a raw integer because
`deserialize` falls back to a raw integer for unknown codes; the bounds
are optional because `deserialize` tolerates a missing primary
threshold. `__init__` always populates `format` and `elev_max`. -/
structure Elevation where
  format : Option Int
  elev_max : Option Int
  elev_min : Option Int
deriving DecidableEq

def elevRangeBad (v : Int) : Bool := v < 0 || 4808 < v

def elevSecondaryBad : Option Int → Bool
  | some es => elevRangeBad es
  | none => false

/-- `Elevation.__init__`: range-check both raw elevations, require or
forbid the secondary threshold according to the format, then round both
thresholds with `round(·, -2)` and decrement the lower one by 100 when
the two roundings coincide. -/
def elevationInit (fmt : Int) (elev : Int) (elevSecondary : Option Int) :
    Except String Elevation :=
  if elevRangeBad elev || elevSecondaryBad elevSecondary then
    .error "ValueError: Elevations must be in the range 0--4808 m.a.s.l."
  else if (fmt == 1 || fmt == 2) && elevSecondary.isSome then
    .error "ValueError: ABOVE and BELOW elevation formats does not use parameter elev_secondary."
  else if (fmt == 3 || fmt == 4) && elevSecondary.isNone then
    .error "ValueError: SANDWICH and MIDDLE elevation formats must use parameter elev_secondary."
  else
    match elevSecondary with
    | some es =>
        let emax := pyRound100 (max elev es)
        let emin0 := pyRound100 (min elev es)
        .ok ⟨some fmt, some emax, some (if emax = emin0 then emin0 - 100 else emin0)⟩
    | none => .ok ⟨some fmt, some elev, none⟩

/-- `Elevation.serialize`. -/
def elevationSerialize (e : Elevation) : List (String × Json) :=
  clean [("ExposedHeightComboTID", jInt e.format),
         ("ExposedHeight1", jInt e.elev_max),
         ("ExposedHeight2", jInt e.elev_min)]

/-- C5: constructing an Elevation rejects any raw elevation outside
[0, 4808]; with two thresholds (SANDWICH=3 or MIDDLE=4) both are rounded
to the nearest 100 m (`pyRound100` is a multiple of 100 within 50 of its
input), and if both roundings coincide the lower bound is decremented by
100, so the band is never zero-width. -/
theorem claim_C5_elevation_encoding :
    (∀ fmt e es, (e < 0 ∨ 4808 < e ∨ (∃ v, es = some v ∧ (v < 0 ∨ 4808 < v))) →
      ∃ m, elevationInit fmt e es = .error m)
    ∧ (∀ fmt e es r, (fmt = 3 ∨ fmt = 4) →
        elevationInit fmt e (some es) = .ok r →
        r.elev_max = some (pyRound100 (max e es)) ∧
        r.elev_min = some (if pyRound100 (max e es) = pyRound100 (min e es)
                           then pyRound100 (min e es) - 100 else pyRound100 (min e es)) ∧
        (∀ v w, r.elev_min = some v → r.elev_max = some w → v < w))
    ∧ (∀ x, 100 ∣ pyRound100 x ∧ (x - pyRound100 x).natAbs ≤ 50) := by
  refine ⟨?_, ?_, fun x => ⟨pyRound100_dvd x, pyRound100_near x⟩⟩
  · intro fmt e es h
    have hc : (elevRangeBad e || elevSecondaryBad es) = true := by
      rcases h with h | h | ⟨v, rfl, h⟩
      · simp only [elevRangeBad, Bool.or_eq_true, decide_eq_true_eq]
        exact Or.inl (Or.inl h)
      · simp only [elevRangeBad, Bool.or_eq_true, decide_eq_true_eq]
        exact Or.inl (Or.inr h)
      · simp only [elevRangeBad, elevSecondaryBad, Bool.or_eq_true, decide_eq_true_eq]
        omega
    unfold elevationInit
    rw [hc]
    exact ⟨_, rfl⟩
  · intro fmt e es r hfmt hok
    unfold elevationInit at hok
    split at hok
    · exact absurd hok (by simp)
    · split at hok
      · exact absurd hok (by simp)
      · split at hok
        · exact absurd hok (by simp)
        · simp only [Except.ok.injEq] at hok
          subst hok
          have hmono : pyRound100 (min e es) ≤ pyRound100 (max e es) :=
            pyRound100_mono (min_le_max)
          refine ⟨rfl, rfl, ?_⟩
          intro v w hv hw
          dsimp only at hv hw
          injection hv with hv
          injection hw with hw
          subst hv
          subst hw
          split <;> omega

/-- Witness for C5: out-of-range input 5000 is rejected, and
`Elevation(MIDDLE, 733, 1260)` rounds to the band 700–1300, which is
non-degenerate. -/
theorem claim_C5_elevation_encoding_witness :
    (∃ m, elevationInit 4 5000 none = .error m) ∧
    elevationInit 4 733 (some 1260) = .ok ⟨some 4, some 1300, some 700⟩ ∧
    (700 : Int) < 1300 := by
  refine ⟨claim_C5_elevation_encoding.1 4 5000 none (by right; left; decide), rfl, ?_⟩
  exact (claim_C5_elevation_encoding.2.1 4 733 1260 ⟨some 4, some 1300, some 700⟩
    (Or.inr rfl) rfl).2.2 700 1300 rfl rfl

/-! ## CompressionTest (`submit.py`, class `CompressionTest`) -/

/-- A compression test record. Enum-typed fields carry their integer wire
codes (`TestResult`: ECTPV=21, ECTP=22, ECTN=23, ECTX=24, LBT=5, CTV=11,
CTE=12, CTM=13, CTH=14, CTN=15). -/
structure CompressionTest where
  test_result : Option Int
  fracture_quality : Option Int
  stability : Option Int
  number_of_taps : Option Int
  fracture_depth_cm : Option ℚ
  is_in_profile : Option Bool
  comment : Option String
deriving DecidableEq

/-- Test results fixed at zero taps: ECTPV, LBT, CTV. -/
def ctNoTaps : List Int := [21, 5, 11]

/-- Test results fixed at all (30) taps: ECTX, CTN. -/
def ctAllTaps : List Int := [24, 15]

def optMem (o : Option Int) (l : List Int) : Bool :=
  match o with
  | some v => v ∈ l
  | none => false

/-- The first tap check: `not (0 < number_of_taps <= 30)`, applied only
when a tap count was given. -/
def tapsOutOfRange : Option Int → Bool
  | some t => !(0 < t && t ≤ 30)
  | none => false

/-- The second tap check, with Python's precedence
`A or (B and C)`: the result is in the no-taps group, or in the all-taps
group with a count other than 0 or 30. Applied only when a tap count was
given. -/
def tapsConflict (test_result : Option Int) : Option Int → Bool
  | some t => optMem test_result ctNoTaps ||
      (optMem test_result ctAllTaps && !(t == 0 || t == 30))
  | none => false

theorem tapsOutOfRange_some_iff (t : Int) :
    tapsOutOfRange (some t) = true ↔ t ≤ 0 ∨ 30 < t := by
  simp only [tapsOutOfRange, Bool.not_eq_true', Bool.and_eq_false_iff,
    decide_eq_false_iff_not]
  omega

/-- `CompressionTest.__init__` validation, in source order: reject an
all-`None` record; reject a tap count outside (0, 30]; reject a
result/taps conflict; reject a fracture depth for an all-taps result. -/
def compressionTestInit (test_result fracture_quality stability : Option Int)
    (number_of_taps : Option Int) (fracture_depth_cm : Option ℚ)
    (is_in_profile : Option Bool) (comment : Option String) :
    Except String CompressionTest :=
  if test_result.isNone && fracture_quality.isNone && stability.isNone &&
      number_of_taps.isNone && fracture_depth_cm.isNone && is_in_profile.isNone &&
      comment.isNone then
    .error "NoObservationError: No argument passed to compression test."
  else if tapsOutOfRange number_of_taps then
    .error "ValueError: Test taps must be in the range 1-30."
  else if tapsConflict test_result number_of_taps then
    .error "ValueError: Supplied test result had invalid number of taps."
  else if fracture_depth_cm.isSome && optMem test_result ctAllTaps then
    .error "ValueError: Supplied test result must not have any fracture depth."
  else
    .ok ⟨test_result, fracture_quality, stability, number_of_taps, fracture_depth_cm,
         is_in_profile, comment⟩

/-- C7: tap counts outside (0, 30] are rejected; every result code in the
no-taps or all-taps group rejects a tap count other than 0 or 30 (in
particular ECTX with 15 taps fails while ECTX with 30 taps succeeds); and
a fracture depth together with an all-taps result (ECTX, CTN) always
fails. -/
theorem claim_C7_compression_test_validation :
    (∀ tr fq st t fd ip c, t ≤ 0 ∨ 30 < t →
      ∃ m, compressionTestInit tr fq st (some t) fd ip c = .error m)
    ∧ (∀ tr fq st t fd ip c,
        tr = some 21 ∨ tr = some 5 ∨ tr = some 11 ∨ tr = some 24 ∨ tr = some 15 →
        t ≠ 0 → t ≠ 30 →
        ∃ m, compressionTestInit tr fq st (some t) fd ip c = .error m)
    ∧ (∃ m, compressionTestInit (some 24) none none (some 15) none none none = .error m)
    ∧ (∃ r, compressionTestInit (some 24) none none (some 30) none none none = .ok r)
    ∧ (∀ tr fq st t fd ip c, tr = some 24 ∨ tr = some 15 →
        ∃ m, compressionTestInit tr fq st t (some fd) ip c = .error m) := by
  refine ⟨?_, ?_, ⟨_, rfl⟩, ⟨_, rfl⟩, ?_⟩
  · intro tr fq st t fd ip c h
    unfold compressionTestInit
    split
    · exact ⟨_, rfl⟩
    · rw [if_pos ((tapsOutOfRange_some_iff t).mpr h)]
      exact ⟨_, rfl⟩
  · intro tr fq st t fd ip c htr ht0 ht30
    unfold compressionTestInit
    split
    · exact ⟨_, rfl⟩
    · by_cases hrange : tapsOutOfRange (some t) = true
      · rw [if_pos hrange]
        exact ⟨_, rfl⟩
      · rw [if_neg hrange, if_pos ?_]
        · exact ⟨_, rfl⟩
        · have hne : ¬(t == 0 || t == 30) = true := by
            simp only [Bool.or_eq_true, beq_iff_eq]
            omega
          rcases htr with rfl | rfl | rfl | rfl | rfl <;>
            simp_all [tapsConflict, optMem, ctNoTaps, ctAllTaps]
  · intro tr fq st t fd ip c htr
    unfold compressionTestInit
    split
    · exact ⟨_, rfl⟩
    · split
      · exact ⟨_, rfl⟩
      · split
        · exact ⟨_, rfl⟩
        · rw [if_pos ?_]
          · exact ⟨_, rfl⟩
          · rcases htr with rfl | rfl <;> simp [optMem, ctAllTaps]

/-- Witness for C7: concrete instances of each validated rule. -/
theorem claim_C7_compression_test_validation_witness :
    (∃ m, compressionTestInit none none none (some 31) none none none = .error m)
    ∧ (∃ m, compressionTestInit (some 21) none none (some 7) none none none = .error m)
    ∧ (∃ m, compressionTestInit (some 15) none none none (some 10) none none = .error m) := by
  exact ⟨claim_C7_compression_test_validation.1 none none none 31 none none none (by omega),
    claim_C7_compression_test_validation.2.1 (some 21) none none 7 none none none
      (Or.inl rfl) (by omega) (by omega),
    claim_C7_compression_test_validation.2.2.2.2 (some 15) none none none 10 none none
      (Or.inr rfl)⟩

/-! ## APS time-series model (`aps.py`, `misc.py`)

Dates are modelled by their ordinal numbers (`dt.date.toordinal`, always
≥ 1), regions by their `SnowRegion` integer codes. -/

/-- An `aps.Data` leaf: the seven percentile values. The `Wind` subclass
additionally carries nine per-direction intensity-bucket share maps,
which flow through `assimilate` as opaque content. -/
structure ApsData where
  perc00 : Option ℚ
  perc05 : Option ℚ
  perc25 : Option ℚ
  perc50 : Option ℚ
  perc75 : Option ℚ
  perc95 : Option ℚ
  perc100 : Option ℚ
  dir_shares : Option (List (List ℚ))
deriving DecidableEq

/-- The seven weather-parameter slots of a `Level`, in the iteration
order of `WEATHER_ATTRS`. -/
inductive WeatherAttr where
  | precip
  | precipMax
  | temp
  | wind
  | snowDepth
  | newSnow
  | newSnowMax
deriving DecidableEq

def WeatherAttr.name : WeatherAttr → String
  | .precip => "precip"
  | .precipMax => "precip_max"
  | .temp => "temp"
  | .wind => "wind"
  | .snowDepth => "snow_depth"
  | .newSnow => "new_snow"
  | .newSnowMax => "new_snow_max"

def weatherAttrs : List WeatherAttr :=
  [.precip, .precipMax, .temp, .wind, .snowDepth, .newSnow, .newSnowMax]

/-- An `aps.Level`: an elevation sub-band holding up to seven parallel
data series. -/
structure Level where
  floor : Option ℚ
  roof : Option ℚ
  index : Option ℚ
  precip : Option ApsData
  precip_max : Option ApsData
  temp : Option ApsData
  wind : Option ApsData
  snow_depth : Option ApsData
  new_snow : Option ApsData
  new_snow_max : Option ApsData
deriving DecidableEq

def Level.getAttr (l : Level) : WeatherAttr → Option ApsData
  | .precip => l.precip
  | .precipMax => l.precip_max
  | .temp => l.temp
  | .wind => l.wind
  | .snowDepth => l.snow_depth
  | .newSnow => l.new_snow
  | .newSnowMax => l.new_snow_max

/-- `Level.__bool__`: any of the seven slots holds data. -/
def levelBool (l : Level) : Bool := weatherAttrs.any (fun s => (l.getAttr s).isSome)

/-- Python truthiness of an optional number (`None` and `0` are falsy). -/
def truthyQ : Option ℚ → Bool
  | some v => v != 0
  | none => false

/-- `max(self_, other_) if self_ and other_ else self_ or other_`
(the local `max_or_not_none` in `Level.assimilate`; note that a value of
0 counts as absent, exactly as in the source's truthiness test). -/
def maxOrNotNone : Option ℚ → Option ℚ → Option ℚ
  | some x, some y =>
      if x ≠ 0 ∧ y ≠ 0 then some (max x y)
      else if x ≠ 0 then some x else some y
  | a, b => if truthyQ a then a else b

/-- One slot of the `Level.assimilate` loop: take the present side,
error when both are present. -/
def mergeSlot (name : String) (s o : Option ApsData) : Except String (Option ApsData) :=
  match s, o with
  | some _, some _ => .error ("ValueError: Both levels have valid " ++ name ++ " data")
  | some x, none => .ok (some x)
  | none, some y => .ok (some y)
  | none, none => .ok none

/-- `Level.assimilate`: boundary fields via `max_or_not_none`, then the
seven slots in `WEATHER_ATTRS` order, failing at the first slot populated
on both sides. -/
def levelAssimilate (a b : Level) : Except String Level := do
  let precip ← mergeSlot "precip" a.precip b.precip
  let precip_max ← mergeSlot "precip_max" a.precip_max b.precip_max
  let temp ← mergeSlot "temp" a.temp b.temp
  let wind ← mergeSlot "wind" a.wind b.wind
  let snow_depth ← mergeSlot "snow_depth" a.snow_depth b.snow_depth
  let new_snow ← mergeSlot "new_snow" a.new_snow b.new_snow
  let new_snow_max ← mergeSlot "new_snow_max" a.new_snow_max b.new_snow_max
  pure { floor := maxOrNotNone a.floor b.floor,
         roof := maxOrNotNone a.roof b.roof,
         index := maxOrNotNone a.index b.index,
         precip := precip, precip_max := precip_max, temp := temp, wind := wind,
         snow_depth := snow_depth, new_snow := new_snow, new_snow_max := new_snow_max }

/-- An `aps.Day`: a date plus a region and a list of levels. -/
structure Day where
  date : Int
  region : Int
  levels : List Level
deriving DecidableEq

/-- `Day.__bool__`: `any(self.levels)`. -/
def dayBool (d : Day) : Bool := d.levels.any levelBool

/-- Python list indexing: non-negative indices from the front, negative
indices from the back, `none` (IndexError) out of range. -/
def pyIndexOpt (l : List α) (i : Int) : Option α :=
  if 0 ≤ i then l.get? i.toNat
  else if 0 ≤ i + l.length then l.get? (i + l.length).toNat
  else none

theorem pyIndexOpt_some_bound {l : List α} {i : Int} {x : α}
    (h : pyIndexOpt l i = some x) : -(l.length : Int) ≤ i := by
  unfold pyIndexOpt at h
  split at h
  · omega
  · split at h
    · omega
    · exact absurd h (by simp)

/-- The walk-back loop of `Day.assimilate`'s wind branch, on explicit
fuel (structural, so it evaluates):
`while (wind_l.floor - nowind_l.floor) / (nowind_l.roof - nowind_l.floor) >= 0.5:
wind_i -= 1; wind_l = wind.levels[wind_i]`. A missing floor is the
source's `TypeError`, a zero-width band its `ZeroDivisionError`, walking
past `-len` its `IndexError`. -/
def windWalkAux (levels : List Level) (nf nr : ℚ) : Level → Int → Nat → Except String Level
  | wl, i, fuel =>
    match wl.floor with
    | none => .error "TypeError: unsupported operand type for subtraction"
    | some wf =>
      if nr - nf = 0 then .error "ZeroDivisionError: division by zero"
      else if (wf - nf) / (nr - nf) ≥ 1/2 then
        match pyIndexOpt levels (i - 1) with
        | none => .error "IndexError: list index out of range"
        | some wl2 =>
          match fuel with
          | 0 => .error "IndexError: list index out of range"
          | fuel + 1 => windWalkAux levels nf nr wl2 (i - 1) fuel
      else .ok wl

/-- The loop with its a-priori iteration bound: each step moves the index
down by one, and an index below `-len` is an `IndexError`, so
`(i + len + 1).toNat` steps always suffice. -/
def windWalk (levels : List Level) (nf nr : ℚ) (wl : Level) (i : Int) :
    Except String Level :=
  windWalkAux levels nf nr wl i (i + levels.length + 1).toNat

def reqQ (o : Option ℚ) : Except String ℚ :=
  match o with
  | some v => .ok v
  | none => .error "TypeError: unsupported operand type for subtraction"

/-- The wind-branch selection of `Day.assimilate`: which side carries
wind, its level list, the starting index and level, and the non-wind
level. `none` when neither chosen level has wind data. -/
def windSelection (a b : Day) (i : Nat) : Option (Nat × List Level × Level × Level) :=
  match pyIndexOpt a.levels (min i (a.levels.length - 1) : Nat),
        pyIndexOpt b.levels (min i (b.levels.length - 1) : Nat) with
  | some sl, some ol =>
      if sl.wind.isSome then some (min i (a.levels.length - 1), a.levels, sl, ol)
      else if ol.wind.isSome then some (min i (b.levels.length - 1), b.levels, ol, sl)
      else none
  | _, _ => none

/-- The body of `Day.assimilate`'s merge loop at index `i`. -/
def mergeAt (a b : Day) (i : Nat) : Except String Level :=
  match pyIndexOpt a.levels (min i (a.levels.length - 1) : Nat),
        pyIndexOpt b.levels (min i (b.levels.length - 1) : Nat) with
  | some sl, some ol =>
      if sl.wind.isSome || ol.wind.isSome then
        match windSelection a b i with
        | some (wind_i, windLevels, wind_l, nowind_l) => do
            let nf ← reqQ nowind_l.floor
            let nr ← reqQ nowind_l.roof
            let w ← windWalk windLevels nf nr wind_l wind_i
            levelAssimilate { w with floor := nowind_l.floor, roof := nowind_l.roof }
              nowind_l
        | none => .error "unreachable"
      else levelAssimilate sl ol
  | _, _ => .error "IndexError: list index out of range"

/-- Sequential `mapM` over `Except`, stopping at the first raised
exception, exactly as a Python `for` loop does. -/
def exMapM (f : α → Except ε β) : List α → Except ε (List β)
  | [] => .ok []
  | x :: l => do
    let y ← f x
    let t ← exMapM f l
    pure (y :: t)

/-- `Day.assimilate`. The wind sub-band selected by the walk is copied
(`deepcopy`) and only the copy is relabelled, so the inputs' own levels
keep their original boundaries; the functional update below models
exactly that. -/
def dayAssimilate (a b : Day) : Except String Day :=
  if a.date ≠ b.date ∨ a.region ≠ b.region then
    .error "ValueError: Incompatible days"
  else if a.levels.isEmpty then .ok ⟨a.date, a.region, b.levels⟩
  else if b.levels.isEmpty then .ok ⟨a.date, a.region, a.levels⟩
  else do
    let ls ← exMapM (mergeAt a b) (List.range (max a.levels.length b.levels.length))
    pure ⟨a.date, a.region, ls⟩

/-! ## Ordered hierarchical container (`misc.py`, class `Container`) -/

/-- Ordered-dict lookup. -/
def odLookup (l : List (Int × α)) (k : Int) : Option α :=
  (l.find? (fun kv => kv.1 == k)).map Prod.snd

def odHasKey (l : List (Int × α)) (k : Int) : Bool :=
  (l.find? (fun kv => kv.1 == k)).isSome

def insertByKey (kv : Int × α) : List (Int × α) → List (Int × α)
  | [] => [kv]
  | h :: t => if kv.1 ≤ h.1 then kv :: h :: t else h :: insertByKey kv t

/-- `Container._sort`: `for key in sorted(keys): move_to_end(key)` leaves
the entries in ascending key order (keys are unique); an insertion sort
computes the same list. -/
def sortByKey : List (Int × α) → List (Int × α)
  | [] => []
  | h :: t => insertByKey h (sortByKey t)

/-- `Container.assimilate` over an ordered dict: start from a copy of
`self`, replace values of keys shared with `other` by the recursive
assimilation, append `other`'s remaining entries in `other`'s order,
then `_sort` and `_filter_empty`. Note that `_filter_empty` tests
`if not key` — it removes entries whose KEY is falsy (for these
containers, the integer 0), not entries whose value is empty. -/
def containerAssimilate (assim : α → α → Except String α)
    (a b : List (Int × α)) : Except String (List (Int × α)) := do
  let merged ← exMapM (fun kv =>
    match odLookup b kv.1 with
    | some o => do
        let v ← assim kv.2 o
        pure (kv.1, v)
    | none => pure kv) a
  let withNew := merged ++ b.filter (fun kv => !odHasKey a kv.1)
  pure ((sortByKey withNew).filter (fun kv => kv.1 != 0))

/-- An `aps.Timeline`: the class-level `treeline` attribute plus the
inherited ordered dict of days, keyed by date ordinal. -/
structure Timeline where
  treeline : Option ℚ
  days : List (Int × Day)
deriving DecidableEq

/-- `Timeline.assimilate`. The source first executes
`self.treeline = self.treeline if self.treeline is not None else other.treeline`,
a mutation of the receiver, and then runs the inherited container merge
(on a fresh instance whose `treeline` is the class default `None`).
The updated receiver is returned on the left, the merge result on the
right. -/
def timelineAssimilate (a b : Timeline) : Timeline × Except String Timeline :=
  let a2 : Timeline :=
    { a with treeline := if a.treeline.isSome then a.treeline else b.treeline }
  (a2, (containerAssimilate dayAssimilate a2.days b.days).map (fun l => ⟨none, l⟩))

/-! ## C3: leaf-level merge conflicts -/

/-- `a or b` on optional objects (an object is truthy when present). -/
def optOr (a b : Option α) : Option α :=
  match a with
  | some x => some x
  | none => b

theorem except_bind_ok (a : α) (f : α → Except ε β) :
    (Except.ok a >>= f : Except ε β) = f a := rfl

theorem except_bind_eq_ok {x : Except ε α} {f : α → Except ε β} {b : β}
    (h : (x >>= f) = .ok b) : ∃ a, x = .ok a ∧ f a = .ok b := by
  cases x with
  | error e => exact absurd h (fun hh => Except.noConfusion hh)
  | ok a => exact ⟨a, rfl, h⟩

theorem mergeSlot_ok_of (n : String) {s o : Option ApsData} (h : s = none ∨ o = none) :
    mergeSlot n s o = .ok (optOr s o) := by
  cases s <;> cases o <;> simp_all [mergeSlot, optOr]

theorem mergeSlot_not_ok {n : String} {s o : Option ApsData} {r : Option ApsData}
    (hs : s.isSome) (ho : o.isSome) (h : mergeSlot n s o = .ok r) : False := by
  cases s <;> cases o <;> simp_all [mergeSlot]

/-- C3: for leaf levels, if at most one side populates each
weather-parameter slot, `Level.assimilate` succeeds and every slot of the
merged level carries the populated side's value; if both sides populate
the same slot, it always raises a data-conflict `ValueError`. -/
theorem claim_C3_level_merge_conflict (x y : Level) :
    ((∀ s : WeatherAttr, x.getAttr s = none ∨ y.getAttr s = none) →
      ∃ l, levelAssimilate x y = .ok l ∧
        ∀ s : WeatherAttr, l.getAttr s = optOr (x.getAttr s) (y.getAttr s))
    ∧ (∀ s : WeatherAttr, (x.getAttr s).isSome → (y.getAttr s).isSome →
      ∃ m, levelAssimilate x y = .error m) := by
  constructor
  · intro h
    have h1 : mergeSlot "precip" x.precip y.precip = .ok (optOr x.precip y.precip) :=
      mergeSlot_ok_of _ (h .precip)
    have h2 : mergeSlot "precip_max" x.precip_max y.precip_max
        = .ok (optOr x.precip_max y.precip_max) := mergeSlot_ok_of _ (h .precipMax)
    have h3 : mergeSlot "temp" x.temp y.temp = .ok (optOr x.temp y.temp) :=
      mergeSlot_ok_of _ (h .temp)
    have h4 : mergeSlot "wind" x.wind y.wind = .ok (optOr x.wind y.wind) :=
      mergeSlot_ok_of _ (h .wind)
    have h5 : mergeSlot "snow_depth" x.snow_depth y.snow_depth
        = .ok (optOr x.snow_depth y.snow_depth) := mergeSlot_ok_of _ (h .snowDepth)
    have h6 : mergeSlot "new_snow" x.new_snow y.new_snow
        = .ok (optOr x.new_snow y.new_snow) := mergeSlot_ok_of _ (h .newSnow)
    have h7 : mergeSlot "new_snow_max" x.new_snow_max y.new_snow_max
        = .ok (optOr x.new_snow_max y.new_snow_max) := mergeSlot_ok_of _ (h .newSnowMax)
    refine ⟨{ floor := maxOrNotNone x.floor y.floor,
              roof := maxOrNotNone x.roof y.roof,
              index := maxOrNotNone x.index y.index,
              precip := optOr x.precip y.precip,
              precip_max := optOr x.precip_max y.precip_max,
              temp := optOr x.temp y.temp,
              wind := optOr x.wind y.wind,
              snow_depth := optOr x.snow_depth y.snow_depth,
              new_snow := optOr x.new_snow y.new_snow,
              new_snow_max := optOr x.new_snow_max y.new_snow_max }, ?_, ?_⟩
    · unfold levelAssimilate
      rw [h1, except_bind_ok, h2, except_bind_ok, h3, except_bind_ok, h4, except_bind_ok,
        h5, except_bind_ok, h6, except_bind_ok, h7, except_bind_ok]
      rfl
    · intro s
      cases s <;> rfl
  · intro s hx hy
    rcases hE : levelAssimilate x y with m | l
    · exact ⟨m, rfl⟩
    · exfalso
      unfold levelAssimilate at hE
      obtain ⟨p1, hp1, hE⟩ := except_bind_eq_ok hE
      obtain ⟨p2, hp2, hE⟩ := except_bind_eq_ok hE
      obtain ⟨p3, hp3, hE⟩ := except_bind_eq_ok hE
      obtain ⟨p4, hp4, hE⟩ := except_bind_eq_ok hE
      obtain ⟨p5, hp5, hE⟩ := except_bind_eq_ok hE
      obtain ⟨p6, hp6, hE⟩ := except_bind_eq_ok hE
      obtain ⟨p7, hp7, hE⟩ := except_bind_eq_ok hE
      cases s with
      | precip => exact mergeSlot_not_ok hx hy hp1
      | precipMax => exact mergeSlot_not_ok hx hy hp2
      | temp => exact mergeSlot_not_ok hx hy hp3
      | wind => exact mergeSlot_not_ok hx hy hp4
      | snowDepth => exact mergeSlot_not_ok hx hy hp5
      | newSnow => exact mergeSlot_not_ok hx hy hp6
      | newSnowMax => exact mergeSlot_not_ok hx hy hp7

def demoData : ApsData := ⟨some 0, some 1, some 2, some 3, some 4, some 5, some 6, none⟩

def demoLevelTemp : Level :=
  ⟨some 0, some 800, some 1, none, none, some demoData, none, none, none, none⟩

def demoLevelPrecip : Level :=
  ⟨some 0, some 800, some 1, some demoData, none, none, none, none, none, none⟩

/-- Witness for C3: a temp-only and a precip-only level merge, carrying
both series; two temp-bearing levels conflict. -/
theorem claim_C3_level_merge_conflict_witness :
    (∃ l, levelAssimilate demoLevelTemp demoLevelPrecip = .ok l ∧
      l.getAttr .temp = some demoData ∧ l.getAttr .precip = some demoData)
    ∧ (∃ m, levelAssimilate demoLevelTemp demoLevelTemp = .error m) := by
  constructor
  · obtain ⟨l, hok, hall⟩ :=
      (claim_C3_level_merge_conflict demoLevelTemp demoLevelPrecip).1
        (by intro s; cases s <;> simp [demoLevelTemp, demoLevelPrecip, Level.getAttr])
    exact ⟨l, hok, by rw [hall .temp]; rfl, by rw [hall .precip]; rfl⟩
  · exact (claim_C3_level_merge_conflict demoLevelTemp demoLevelTemp).2 .temp
      (by rfl) (by rfl)

/-! ## C2: container merge and the `_filter_empty` key test -/

/-- A day (2021-01-01 in region 3003) with no levels: falsy under
`Day.__bool__`. -/
def emptyDay : Day := ⟨737791, 3003, []⟩

/-- C2, evaluated at the failing input: assimilating an empty timeline
with one holding a single EMPTY day keeps the empty entry, because
`Container._filter_empty` tests `if not key` (key truthiness) rather than
the entry's truthiness. The claim's "result has all falsy (empty)
entries removed" is false of the code; `_filter_empty`'s own name, the
`if day`/`if timeline` guards in `to_dict`, and the spec's
"filtering of falsy (empty) children" all indicate the intended test was
on the child. -/
theorem claim_C2_container_merge_failing_input :
    (timelineAssimilate ⟨none, []⟩ ⟨none, [(737791, emptyDay)]⟩).2
      = .ok ⟨none, [(737791, emptyDay)]⟩
    ∧ dayBool emptyDay = false := ⟨rfl, rfl⟩

/-! ## C9: assimilate and input mutation -/

/-- C9 counterexample: `Timeline.assimilate` mutates its receiver. With
`a.treeline = None` and `b.treeline = 700`, the receiver observed after
`a.assimilate(b)` differs from `a`: its treeline has become 700. -/
theorem claim_C9_assimilate_mutates_counterexample :
    (timelineAssimilate ⟨none, []⟩ ⟨some 700, []⟩).1 ≠ (⟨none, []⟩ : Timeline) := by
  intro h
  have := congrArg Timeline.treeline h
  simp [timelineAssimilate] at this

/-- C9 amended: `assimilate` returns a fresh container and leaves `b`
unchanged, and leaves `a`'s entries unchanged — but `Timeline.assimilate`
first sets the receiver's `treeline` to the other side's when its own is
`None` (the only mutation of an input anywhere in the merge engine; an
`Aps.assimilate` therefore also mutates the timelines it shares with its
receiver). `Day.assimilate` and `Level.assimilate` build fresh objects. -/
theorem claim_C9_assimilate_mutation_amended (a b : Timeline) :
    (timelineAssimilate a b).1.days = a.days
    ∧ (timelineAssimilate a b).1.treeline
        = (if a.treeline.isSome then a.treeline else b.treeline) :=
  ⟨rfl, rfl⟩

/-! ## C4: the wind-band walk-back merge -/

theorem pyIndexOpt_natCast (l : List α) (n : Nat) : pyIndexOpt l (n : Int) = l.get? n := by
  simp [pyIndexOpt]

/-- The wind sub-band selection as the spec describes it: starting from
the current wind-side index, walk backward through the sibling levels
while `(wind floor - nf) / (nr - nf) ≥ 0.5`, and return the index where
the walk stops. `none` when a floor is missing or the walk leaves the
front of the list. -/
def specWalkBack (levels : List Level) (nf nr : ℚ) : Nat → Option Nat
  | 0 =>
    match (levels.get? 0).bind Level.floor with
    | none => none
    | some wf => if (wf - nf) / (nr - nf) ≥ 1/2 then none else some 0
  | j + 1 =>
    match (levels.get? (j + 1)).bind Level.floor with
    | none => none
    | some wf =>
      if (wf - nf) / (nr - nf) ≥ 1/2 then specWalkBack levels nf nr j
      else some (j + 1)

theorem specWalkBack_some_get {levels : List Level} {nf nr : ℚ} {k j : Nat}
    (h : specWalkBack levels nf nr k = some j) : ∃ l, levels.get? k = some l := by
  cases k with
  | zero =>
    unfold specWalkBack at h
    cases hg : levels.get? 0 with
    | none => rw [hg] at h; exact absurd h (by simp)
    | some l => exact ⟨l, rfl⟩
  | succ k =>
    unfold specWalkBack at h
    cases hg : levels.get? (k + 1) with
    | none => rw [hg] at h; exact absurd h (by simp)
    | some l => exact ⟨l, rfl⟩

theorem windWalkAux_eq_spec (levels : List Level) (nf nr : ℚ) (hnz : ¬(nr - nf = 0)) :
    ∀ (j0 : Nat) (fuel : Nat), j0 < fuel →
    ∀ (wl : Level), levels.get? j0 = some wl →
    ∀ (j : Nat) (w : Level), specWalkBack levels nf nr j0 = some j →
    levels.get? j = some w →
    windWalkAux levels nf nr wl (j0 : Int) fuel = .ok w := by
  intro j0
  induction j0 with
  | zero =>
    intro fuel hfuel wl hg j w hs hw
    unfold specWalkBack at hs
    rw [hg] at hs
    simp only [Option.some_bind] at hs
    cases hf : wl.floor with
    | none =>
      rw [hf] at hs
      exact absurd hs (by simp)
    | some wf =>
      rw [hf] at hs
      simp only at hs
      split at hs
      · exact absurd hs (by simp)
      · simp only [Option.some.injEq] at hs
        subst hs
        rw [hg] at hw
        injection hw with hw
        subst hw
        unfold windWalkAux
        simp only [hf]
        rw [if_neg hnz, if_neg (by assumption)]
  | succ k ih =>
    intro fuel hfuel wl hg j w hs hw
    unfold specWalkBack at hs
    rw [hg] at hs
    simp only [Option.some_bind] at hs
    cases hf : wl.floor with
    | none =>
      rw [hf] at hs
      exact absurd hs (by simp)
    | some wf =>
      rw [hf] at hs
      simp only at hs
      split at hs
      · -- the ratio is ≥ 1/2: walk one sibling back
        obtain ⟨wl2, hg2⟩ := specWalkBack_some_get hs
        unfold windWalkAux
        simp only [hf]
        rw [if_neg hnz, if_pos (by assumption)]
        have hidx : pyIndexOpt levels ((k + 1 : Nat) - 1 : Int) = some wl2 := by
          have hc : ((k + 1 : Nat) : Int) - 1 = (k : Int) := by push_cast; ring
          rw [hc, pyIndexOpt_natCast, hg2]
        simp only [hidx]
        cases fuel with
        | zero => exact absurd hfuel (by omega)
        | succ f =>
          have hc : ((k + 1 : Nat) : Int) - 1 = (k : Int) := by push_cast; ring
          rw [hc]
          exact ih f (by omega) wl2 hg2 j w hs hw
      · simp only [Option.some.injEq] at hs
        subst hs
        rw [hg] at hw
        injection hw with hw
        subst hw
        unfold windWalkAux
        simp only [hf]
        rw [if_neg hnz, if_neg (by assumption)]

theorem windWalk_eq_spec (levels : List Level) (nf nr : ℚ) (hnz : ¬(nr - nf = 0))
    (j0 : Nat) (wl : Level) (hg : levels.get? j0 = some wl)
    (j : Nat) (w : Level) (hs : specWalkBack levels nf nr j0 = some j)
    (hw : levels.get? j = some w) :
    windWalk levels nf nr wl (j0 : Int) = .ok w := by
  unfold windWalk
  exact windWalkAux_eq_spec levels nf nr hnz j0 _ (by omega) wl hg j w hs hw

theorem exMapM_ok_get {f : α → Except ε β} :
    ∀ {l : List α} {out : List β}, exMapM f l = .ok out →
    ∀ {i : Nat} {x : α}, l.get? i = some x → ∃ y, f x = .ok y ∧ out.get? i = some y := by
  intro l
  induction l with
  | nil =>
    intro out h i x hx
    exact absurd hx (by simp)
  | cons a t ih =>
    intro out h i x hx
    unfold exMapM at h
    obtain ⟨y, hy, h⟩ := except_bind_eq_ok h
    obtain ⟨ys, hys, h⟩ := except_bind_eq_ok h
    have hout : out = y :: ys := by
      have h2 : Except.ok (ε := ε) (y :: ys) = .ok out := h
      injection h2 with h2
      exact h2.symm
    subst hout
    cases i with
    | zero =>
      simp only [List.get?] at hx
      injection hx with hx
      subst hx
      exact ⟨y, hy, rfl⟩
    | succ n => exact ih hys hx

theorem windSelection_cases {a b : Day} {i : Nat}
    {res : Nat × List Level × Level × Level}
    (h : windSelection a b i = some res) :
    ∃ sl ol, pyIndexOpt a.levels (min i (a.levels.length - 1) : Nat) = some sl ∧
      pyIndexOpt b.levels (min i (b.levels.length - 1) : Nat) = some ol ∧
      ((sl.wind.isSome = true ∧ res = (min i (a.levels.length - 1), a.levels, sl, ol)) ∨
       (sl.wind.isSome = false ∧ ol.wind.isSome = true ∧
         res = (min i (b.levels.length - 1), b.levels, ol, sl))) := by
  unfold windSelection at h
  split at h
  · rename_i sl ol hsl hol
    refine ⟨sl, ol, hsl, hol, ?_⟩
    split at h
    · injection h with h
      exact Or.inl ⟨by assumption, h.symm⟩
    · split at h
      · injection h with h
        exact Or.inr ⟨by simp_all, by assumption, h.symm⟩
      · exact absurd h (by simp)
  · exact absurd h (by simp)

/-- The chosen wind-side index addresses the chosen wind-side level. -/
theorem windSelection_get {a b : Day} {i : Nat}
    {wind_i : Nat} {windLevels : List Level} {wind_l nowind_l : Level}
    (h : windSelection a b i = some (wind_i, windLevels, wind_l, nowind_l)) :
    windLevels.get? wind_i = some wind_l := by
  obtain ⟨sl, ol, hsl, hol, hcases⟩ := windSelection_cases h
  rcases hcases with ⟨_, heq⟩ | ⟨_, _, heq⟩ <;>
  · injection heq with h1 hrest
    injection hrest with h2 hrest
    injection hrest with h3 h4
    subst h1; subst h2; subst h3
    rw [← pyIndexOpt_natCast]
    assumption

/-- In the wind branch, `mergeAt` is exactly: extract the non-wind
boundaries, run the walk-back loop from the selected index, relabel a
copy of the found sub-band, then field-merge. -/
theorem mergeAt_wind {a b : Day} {i : Nat}
    {wind_i : Nat} {windLevels : List Level} {wind_l nowind_l : Level}
    (hsel : windSelection a b i = some (wind_i, windLevels, wind_l, nowind_l)) :
    mergeAt a b i = (do
      let nf ← reqQ nowind_l.floor
      let nr ← reqQ nowind_l.roof
      let w ← windWalk windLevels nf nr wind_l (wind_i : Int)
      levelAssimilate { w with floor := nowind_l.floor, roof := nowind_l.roof }
        nowind_l) := by
  obtain ⟨sl, ol, hsl, hol, hcases⟩ := windSelection_cases hsel
  unfold mergeAt
  rw [hsl, hol]
  dsimp only
  rcases hcases with ⟨hwind, heq⟩ | ⟨hno, hwind, heq⟩
  · rw [if_pos (by simp [hwind]), hsel]
  · rw [if_pos (by simp [hno, hwind]), hsel]

/-- C4: whenever `Day.assimilate` succeeds on two days with levels, entry
`i` of the output is computed by the loop body `mergeAt`; and in the
wind-versus-non-wind case the loop body equals: walk backward through the
wind side's sibling levels while
`(wind floor − non-wind floor) / (non-wind roof − non-wind floor) ≥ 0.5`
(`specWalkBack`), relabel a copy of the selected sub-band's floor and
roof to the non-wind band's, and field-merge it with the non-wind level.
The inputs are never modified: the relabelling acts on a copy
(`deepcopy` in the source, a functional record update here). -/
theorem claim_C4_wind_band_merge (a b : Day) (d : Day) (i : Nat)
    (hok : dayAssimilate a b = .ok d)
    (ha : a.levels.isEmpty = false) (hb : b.levels.isEmpty = false)
    (hi : i < max a.levels.length b.levels.length) :
    (∃ li, mergeAt a b i = .ok li ∧ d.levels.get? i = some li)
    ∧ (∀ wind_i windLevels wind_l nowind_l nf nr j w,
        windSelection a b i = some (wind_i, windLevels, wind_l, nowind_l) →
        nowind_l.floor = some nf → nowind_l.roof = some nr → ¬(nr - nf = 0) →
        specWalkBack windLevels nf nr wind_i = some j →
        windLevels.get? j = some w →
        mergeAt a b i
          = levelAssimilate { w with floor := nowind_l.floor, roof := nowind_l.roof }
              nowind_l) := by
  constructor
  · unfold dayAssimilate at hok
    split at hok
    · exact absurd hok (by simp)
    · rw [ha, hb] at hok
      simp only [Bool.false_eq_true, if_false] at hok
      obtain ⟨ls, hmap, hok⟩ := except_bind_eq_ok hok
      have hd : d = ⟨a.date, a.region, ls⟩ := by
        have h2 : Except.ok (ε := String) (Day.mk a.date a.region ls) = .ok d := hok
        injection h2 with h2
        exact h2.symm
      subst hd
      obtain ⟨li, hli, hgi⟩ := exMapM_ok_get hmap (List.get?_range hi)
      exact ⟨li, hli, hgi⟩
  · intro wind_i windLevels wind_l nowind_l nf nr j w hsel hnf hnr hnz hspec hw
    rw [mergeAt_wind hsel, hnf, hnr]
    show (do
      let wv ← windWalk windLevels nf nr wind_l (wind_i : Int)
      levelAssimilate { wv with floor := some nf, roof := some nr } nowind_l) = _
    rw [windWalk_eq_spec windLevels nf nr hnz wind_i wind_l (windSelection_get hsel)
      j w hspec hw]
    rfl

def windData : ApsData := ⟨some 4, some 4, some 9, some 9, some 12, some 12, some 12, some [[1]]⟩

def windLevelLow : Level := ⟨some 0, some 600, some 1, none, none, none, some windData, none, none, none⟩

def windLevelHigh : Level := ⟨some 600, some 800, some 2, none, none, none, some windData, none, none, none⟩

/-- A temp-only day partitioned as one 0–800 band. -/
def tempDay : Day := ⟨737791, 3003, [demoLevelTemp]⟩

/-- A wind day pre-partitioned at the 600 m treeline. -/
def windDay : Day := ⟨737791, 3003, [windLevelLow, windLevelHigh]⟩

/-- The merged level both output slots carry: temp and wind on the
0–800 band. -/
def mergedTempWind : Level :=
  ⟨some 0, some 800, some 1, none, none, some demoData, some windData, none, none, none⟩

def mergedTempWindDay : Day := ⟨737791, 3003, [mergedTempWind, mergedTempWind]⟩

/-- Witness for C4: at index 1, the high wind band (floor 600) overlaps
the 0–800 temp band by 75% ≥ 50%, so the walk steps back to the low wind
band; the merged entry is the relabelled low band field-merged with the
temp band. -/
theorem claim_C4_wind_band_merge_witness :
    ∃ li, mergeAt tempDay windDay 1 = .ok li ∧
      mergedTempWindDay.levels.get? 1 = some li ∧
      mergeAt tempDay windDay 1
        = levelAssimilate { windLevelLow with floor := some 0, roof := some 800 }
            demoLevelTemp := by
  have hok : dayAssimilate tempDay windDay = .ok mergedTempWindDay := by
    norm_num [dayAssimilate, tempDay, windDay, mergeAt, windSelection, pyIndexOpt, exMapM,
      List.range, List.range.loop, windWalk, windWalkAux, reqQ, levelAssimilate, mergeSlot,
      maxOrNotNone, truthyQ, pure, Except.pure, demoLevelTemp, windLevelLow, windLevelHigh,
      mergedTempWindDay, mergedTempWind, demoData, windData, bind, Except.bind]
  have hsel : windSelection tempDay windDay 1
      = some (1, windDay.levels, windLevelHigh, demoLevelTemp) := by
    norm_num [windSelection, tempDay, windDay, pyIndexOpt, demoLevelTemp, windLevelHigh,
      windLevelLow]
  have hspec : specWalkBack windDay.levels 0 800 1 = some 0 := by
    norm_num [specWalkBack, windDay, windLevelLow, windLevelHigh]
  obtain ⟨⟨li, h1, h2⟩, h3⟩ :=
    claim_C4_wind_band_merge tempDay windDay mergedTempWindDay 1 hok rfl rfl (by decide)
  exact ⟨li, h1, h2, h3 1 windDay.levels windLevelHigh demoLevelTemp 0 800 0 windLevelLow
    hsel rfl rfl (by norm_num) hspec rfl⟩

/-! ## Observation records (`submit.py`)

Fields mirror each class's `__init__`/`deserialize` assignments. Enum
fields hold the integer wire code; datetimes hold their ISO strings. -/

/-- Python `round(x)` on a rational: nearest integer, ties to even. -/
def pyRoundQ (q : ℚ) : Int :=
  if q - ⌊q⌋ < 1/2 then ⌊q⌋
  else if 1/2 < q - ⌊q⌋ then ⌊q⌋ + 1
  else if ⌊q⌋ % 2 = 0 then ⌊q⌋ else ⌊q⌋ + 1

/-- `Position`: the bounds are optional because
`SnowRegistration.deserialize` assigns the raw wire values (possibly
null) without the constructor's range validation. -/
structure Position where
  lat : Option ℚ
  lon : Option ℚ
deriving DecidableEq

structure Url where
  url : Option String
  description : Option String
deriving DecidableEq

def urlSerialize (u : Url) : Json :=
  .obj (clean [("UrlDescription", jStr u.description),
               ("UrlLine", jStr u.url)])

/-- `Expositions.serialize`: start from "00000000" and set character
`e` to "1" for each direction (`exp[:e] + "1" + exp[e+1:]`; directions
are 0..7). -/
def setCharOne (s : List Char) (i : Nat) : List Char :=
  s.take i ++ ['1'] ++ s.drop (i + 1)

def expositionsSerialize (dirs : List Int) : String :=
  ⟨dirs.foldl (fun s d => setCharOne s d.toNat) "00000000".toList⟩

structure Observer where
  nickname : Option String
  id : Option Int
  competence : Option Int
deriving DecidableEq

structure Image where
  uuid : Option String
  file_path : String
  mime : String
  direction : Option Int
  photographer : Option String
  copyright_holder : Option String
  comment : Option String
deriving DecidableEq

def imageSerializeObj (img : Image) : List (String × Json) :=
  clean [("AttachmentUploadId", jStr img.uuid),
         ("Aspect", jInt (img.direction.map (· * 45))),
         ("AttachmentMimeType", jStr (some img.mime)),
         ("Photographer", jStr img.photographer),
         ("Copyright", jStr img.copyright_holder),
         ("Comment", jStr img.comment)]

def imageSerialize (img : Image) : Json := .obj (imageSerializeObj img)

/-- `UploadedImage` (server-confirmed attachment; has no `serialize`). -/
structure UploadedImage where
  id : Option Int
  url : Option String
  mime : Option String
  direction : Option Int
  photographer : Option String
  copyright_holder : Option String
  comment : Option String
deriving DecidableEq

/-- An entry of `SnowRegistration.images`: a locally staged `Image` or a
deserialized `UploadedImage`. Serializing the latter raises
`AttributeError` in the source (it defines no `serialize`). -/
inductive ImgItem where
  | localImg (img : Image)
  | uploadedImg (u : UploadedImage)
deriving DecidableEq

/-- One flattened attachment:
`{**image.serialize(), "GeoHazardTID": 10, "RegistrationTID": obs_type}`
(the dict-splat appends the two constants after the image's own cleaned
entries). An `UploadedImage` raises `AttributeError` (no `serialize`). -/
def imgEntrySerialize (t : Int) : ImgItem → Except String Json
  | .localImg i => .ok (.obj (imageSerializeObj i
      ++ [("GeoHazardTID", .num 10), ("RegistrationTID", jInt (some t))]))
  | .uploadedImg _ => .error "AttributeError: UploadedImage has no attribute serialize"

structure DangerSign where
  sign : Option Int
  comment : Option String
deriving DecidableEq

def dangerSignSerialize (d : DangerSign) : Json :=
  .obj (clean [("DangerSignTID", jInt (some (match d.sign with
                                             | some s => s
                                             | none => 0))),
               ("Comment", jStr d.comment)])

structure AvalancheObs where
  release_time : Option String
  start : Option Position
  stop : Option Position
  exposition : Option Int
  size : Option Int
  avalanche_type : Option Int
  trigger : Option Int
  terrain : Option Int
  weak_layer : Option Int
  fracture_height_cm : Option ℚ
  fracture_width : Option ℚ
  path_name : Option String
  comment : Option String
deriving DecidableEq

def avalancheObsSerialize (o : AvalancheObs) : Except String Json := do
  let release ← (match o.release_time with
    | some t => Except.ok t
    | none => Except.error "AttributeError: NoneType has no attribute isoformat")
  .ok (.obj (clean [
    ("AvalCauseTID", jInt o.weak_layer),
    ("AvalancheTID", jInt o.avalanche_type),
    ("AvalancheTriggerTID", jInt o.trigger),
    ("Comment", jStr o.comment),
    ("DestructiveSizeTID", jInt o.size),
    ("DtAvalancheTime", .str release),
    ("FractureHeight", jInt (o.fracture_height_cm.map pyRoundQ)),
    ("FractureWidth", jInt (o.fracture_width.map pyRoundQ)),
    ("StartLat", jNum (o.start.bind Position.lat)),
    ("StartLong", jNum (o.start.bind Position.lon)),
    ("StopLat", jNum (o.stop.bind Position.lat)),
    ("StopLong", jNum (o.stop.bind Position.lon)),
    ("TerrainStartZoneTID", jInt o.terrain),
    ("Trajectory", jStr o.path_name),
    ("ValidExposition", jStr (o.exposition.map (fun e => expositionsSerialize [e])))]))

structure AvalancheActivity where
  start : Option String
  finish : Option String
  quantity : Option Int
  avalanche_type : Option Int
  sensitivity : Option Int
  size : Option Int
  distribution : Option Int
  elevation : Option Elevation
  expositions : Option (List Int)
  comment : Option String
deriving DecidableEq

def avalancheActivitySerialize (a : AvalancheActivity) : Except String Json := do
  let endStr ← (match a.finish with
    | some t => Except.ok t
    | none => Except.error "AttributeError: NoneType has no attribute isoformat")
  let startStr ← (match a.start with
    | some t => Except.ok t
    | none => Except.error "AttributeError: NoneType has no attribute isoformat")
  let obs := [
    ("AvalPropagationTID", jInt a.distribution),
    ("AvalTriggerSimpleTID", jInt a.sensitivity),
    ("AvalancheExtTID", jInt a.avalanche_type),
    ("Comment", jStr a.comment),
    ("DestructiveSizeTID", jInt a.size),
    ("DtEnd", Json.str endStr),
    ("DtStart", Json.str startStr),
    ("EstimatedNumTID", jInt a.quantity),
    ("ValidExposition", jStr (a.expositions.map expositionsSerialize))]
  let obs := match a.elevation with
    | some e => obs ++ elevationSerialize e
    | none => obs
  .ok (.obj (clean obs))

structure Weather where
  precipitation : Option Int
  wind_dir : Option Int
  air_temp : Option ℚ
  wind_speed : Option ℚ
  cloud_cover_percent : Option ℚ
  comment : Option String
deriving DecidableEq

def weatherSerialize (w : Weather) : Json :=
  .obj (clean [
    ("AirTemperature", jNum w.air_temp),
    ("CloudCover", jInt (w.cloud_cover_percent.map pyRoundQ)),
    ("Comment", jStr w.comment),
    ("PrecipitationTID", jInt w.precipitation),
    ("WindDirection", jInt (w.wind_dir.map (· * 45))),
    ("WindSpeed", jNum w.wind_speed)])

structure SnowCover where
  drift : Option Int
  surface : Option Int
  moisture : Option Int
  hn24_cm : Option ℚ
  new_snow_line : Option ℚ
  hs_cm : Option ℚ
  snow_line : Option ℚ
  layered_snow_line : Option ℚ
  comment : Option String
deriving DecidableEq

def snowCoverSerialize (c : SnowCover) : Json :=
  .obj (clean [
    ("Comment", jStr c.comment),
    ("HeightLimitLayeredSnow", jNum c.layered_snow_line),
    ("NewSnowDepth24", jNum (c.hn24_cm.map (· / 100))),
    ("NewSnowLine", jInt (c.new_snow_line.map pyRoundQ)),
    ("SnowDepth", jNum (c.hs_cm.map (· / 100))),
    ("SnowDriftTID", jInt c.drift),
    ("SnowLine", jInt (c.snow_line.map pyRoundQ)),
    ("SnowSurfaceTID", jInt c.surface),
    ("SurfaceWaterContentTID", jInt c.moisture)])

def compressionTestSerialize (t : CompressionTest) : Json :=
  .obj (clean [
    ("PropagationTID", jInt t.test_result),
    ("ComprTestFractureTID", jInt t.fracture_quality),
    ("StabilityEvalTID", jInt t.stability),
    ("TapsFracture", jInt t.number_of_taps),
    ("FractureDepth", jNum (t.fracture_depth_cm.map (· / 100))),
    ("IncludeInSnowProfile", jBool t.is_in_profile),
    ("Comment", jStr t.comment)])

structure SnowLayer where
  thickness_cm : Option ℚ
  hardness : Option Int
  grain_form_primary : Option Int
  grain_size_mm : Option ℚ
  wetness : Option Int
  hardness_bottom : Option Int
  grain_form_sec : Option Int
  grain_size_max_mm : Option ℚ
  critical_layer : Option Int
  comment : Option String
deriving DecidableEq

def snowLayerSerialize (l : SnowLayer) : Json :=
  .obj (clean [
    ("Thickness", jNum (l.thickness_cm.map (· / 100))),
    ("HardnessTID", jInt l.hardness),
    ("GrainFormPrimaryTID", jInt l.grain_form_primary),
    ("GrainSizeAvg", jNum (l.grain_size_mm.map (· / 100))),
    ("WetnessTID", jInt l.wetness),
    ("HardnessBottomTID", jInt l.hardness_bottom),
    ("GrainFormSecondaryTID", jInt l.grain_form_sec),
    ("GrainSizeAvgMax", jNum (l.grain_size_max_mm.map (· / 100))),
    ("CriticalLayerTID", jInt l.critical_layer),
    ("Comment", jStr l.comment)])

structure SnowTemp where
  depth_cm : Option ℚ
  temp_c : Option ℚ
deriving DecidableEq

def snowTempSerialize (t : SnowTemp) : Json :=
  .obj (clean [("Depth", jNum (t.depth_cm.map (· / 100))),
               ("SnowTemp", jNum t.temp_c)])

structure SnowDensity where
  thickness_cm : Option ℚ
  density_kg_per_cubic_metre : Option ℚ
deriving DecidableEq

def snowDensitySerialize (d : SnowDensity) : Json :=
  .obj (clean [("Thickness", jNum (d.thickness_cm.map (· / 100))),
               ("Density", jNum d.density_kg_per_cubic_metre)])

structure SnowProfile where
  layers : Option (List SnowLayer)
  temperatures : Option (List SnowTemp)
  densities : Option (List SnowDensity)
  is_profile_to_ground : Option Bool
  comment : Option String
deriving DecidableEq

def reqList (what : String) : Option (List α) → Except String (List α)
  | some l => .ok l
  | none => .error ("TypeError: NoneType " ++ what ++ " is not iterable")

def snowProfileSerialize (p : SnowProfile) : Except String Json := do
  let layers ← reqList "layers" p.layers
  let temps ← reqList "temperatures" p.temperatures
  let densities ← reqList "densities" p.densities
  .ok (.obj (clean [
    ("StratProfile", .obj (clean [("Layers", .arr (layers.map snowLayerSerialize))])),
    ("SnowTemp", .obj (clean [("Layers", .arr (temps.map snowTempSerialize))])),
    ("SnowDensity", if densities.length ≠ 0 then
        .arr [.obj (clean [("Layers", .arr (densities.map snowDensitySerialize))])]
      else .null),
    ("IsProfileToGround", jBool p.is_profile_to_ground),
    ("Comment", jStr p.comment)]))

structure AvalancheProblem where
  weak_layer : Option Int
  layer_depth : Option Int
  avalanche_type : Option Int
  sensitivity : Option Int
  size : Option Int
  distribution : Option Int
  elevation : Option Elevation
  expositions : Option (List Int)
  is_easy_propagation : Option Bool
  is_layer_thin : Option Bool
  is_soft_slab_above : Option Bool
  is_large_crystals : Option Bool
  comment : Option String
deriving DecidableEq

/-- `1 if self.is_easy_propagation else None` (falsy `False` also maps
to null), and similarly for the other attribute flags. -/
def flagVal (v : Int) : Option Bool → Json
  | some true => .num v
  | _ => .null

def avalancheProblemSerialize (p : AvalancheProblem) : Json :=
  let obs := [
    ("AvalCauseTID", jInt p.weak_layer),
    ("AvalCauseDepthTID", jInt p.layer_depth),
    ("AvalCauseAttributeLightTID", flagVal 1 p.is_easy_propagation),
    ("AvalCauseAttributeThinTID", flagVal 2 p.is_layer_thin),
    ("AvalCauseAttributeSoftTID", flagVal 4 p.is_soft_slab_above),
    ("AvalCauseAttributeCrystalTID", flagVal 8 p.is_large_crystals),
    ("AvalancheExtTID", jInt p.avalanche_type),
    ("AvalTriggerSimpleTID", jInt p.sensitivity),
    ("DestructiveSizeTID", jInt p.size),
    ("AvalPropagationTID", jInt p.distribution),
    ("Comment", jStr p.comment),
    ("ValidExposition", jStr (p.expositions.map expositionsSerialize))]
  let obs := match p.elevation with
    | some e => obs ++ elevationSerialize e
    | none => obs
  .obj (clean obs)

structure DangerAssessment where
  danger_level : Option Int
  forecast_evaluation : Option Int
  danger_assessment : Option String
  danger_development : Option String
  comment : Option String
deriving DecidableEq

def dangerAssessmentSerialize (d : DangerAssessment) : Json :=
  .obj (clean [
    ("AvalancheDangerTID", jInt d.danger_level),
    ("ForecastCorrectTID", jInt d.forecast_evaluation),
    ("AvalancheEvaluation", jStr d.danger_assessment),
    ("AvalancheDevelopment", jStr d.danger_development),
    ("ForecastComment", jStr d.comment)])

structure Incident where
  activity : Option Int
  extent : Option Int
  comment : Option String
  urls : List Url
deriving DecidableEq

def incidentSerialize (i : Incident) : Json :=
  .obj (clean [
    ("ActivityInfluencedTID", jInt i.activity),
    ("Comment", jStr i.comment),
    ("DamageExtentTID", jInt i.extent),
    ("IncidentURLs", .arr (i.urls.map urlSerialize))])

structure Note where
  comment : Option String
  urls : List Url
deriving DecidableEq

def noteSerialize (n : Note) : Json :=
  .obj (clean [
    ("ObsComment", jStr n.comment),
    ("Urls", .arr (n.urls.map urlSerialize))])

/-! ## The registration aggregate (`SnowRegistration`) -/

/-- `SnowRegistration`. List-valued fields are optional because
`deserialize` stores `None` for an absent wire key (`_apply`); `__init__`
initialises them to empty lists. `AvalancheActivity.finish` models the
source's `end` attribute (`end` is reserved in Lean). -/
structure SnowReg where
  any_obs : Bool
  obs_time : Option String
  position : Position
  spatial_precision : Option Int
  source : Option Int
  id : Option Int
  observer : Option Observer
  danger_signs : Option (List DangerSign)
  avalanche_obs : Option AvalancheObs
  avalanche_activities : Option (List AvalancheActivity)
  weather : Option Weather
  snow_cover : Option SnowCover
  compression_tests : Option (List CompressionTest)
  snow_profile : Option SnowProfile
  avalanche_problems : Option (List AvalancheProblem)
  danger_assessment : Option DangerAssessment
  incident : Option Incident
  note : Option Note
  images : List (Int × List ImgItem)
deriving DecidableEq

/-- `SnowRegistration.__init__`: `any_obs = False`, empty collections,
the image dict pre-populated with the eleven observation-type codes in
source order. -/
def snowRegInit (obs_time : Option String) (position : Position)
    (spatial_precision source : Option Int) : SnowReg :=
  { any_obs := false, obs_time := obs_time, position := position,
    spatial_precision := spatial_precision, source := source,
    id := none, observer := none,
    danger_signs := some [], avalanche_obs := none,
    avalanche_activities := some [], weather := none, snow_cover := none,
    compression_tests := some [], snow_profile := none,
    avalanche_problems := some [], danger_assessment := none,
    incident := none, note := none,
    images := [(10, []), (11, []), (13, []), (21, []), (22, []), (25, []),
               (26, []), (31, []), (32, []), (33, []), (36, [])] }

/-! The add/set observation methods. The `add_*` methods on list fields
append (`AttributeError` when the field holds `None`, which only arises
on deserialized registrations); `add_avalanche_problem` checks the cap
of 3 before touching the flag, exactly as the source does. -/

def addDangerSign (r : SnowReg) (d : DangerSign) : Except String SnowReg :=
  match r.danger_signs with
  | some l => .ok { r with any_obs := true, danger_signs := some (l ++ [d]) }
  | none => .error "AttributeError: NoneType has no attribute append"

def setAvalancheObs (r : SnowReg) (o : AvalancheObs) : SnowReg :=
  { r with any_obs := true, avalanche_obs := some o }

def addAvalancheActivity (r : SnowReg) (a : AvalancheActivity) : Except String SnowReg :=
  match r.avalanche_activities with
  | some l => .ok { r with any_obs := true, avalanche_activities := some (l ++ [a]) }
  | none => .error "AttributeError: NoneType has no attribute append"

def setWeather (r : SnowReg) (w : Weather) : SnowReg :=
  { r with any_obs := true, weather := some w }

def setSnowCover (r : SnowReg) (c : SnowCover) : SnowReg :=
  { r with any_obs := true, snow_cover := some c }

def addCompressionTest (r : SnowReg) (t : CompressionTest) : Except String SnowReg :=
  match r.compression_tests with
  | some l => .ok { r with any_obs := true, compression_tests := some (l ++ [t]) }
  | none => .error "AttributeError: NoneType has no attribute append"

def setSnowProfile (r : SnowReg) (p : SnowProfile) : SnowReg :=
  { r with any_obs := true, snow_profile := some p }

def addAvalancheProblem (r : SnowReg) (p : AvalancheProblem) : Except String SnowReg :=
  match r.avalanche_problems with
  | some l =>
      if l.length ≥ 3 then .error "ValueError: Too many avalanche problems."
      else .ok { r with any_obs := true, avalanche_problems := some (l ++ [p]) }
  | none => .error "TypeError: object of type NoneType has no len"

def setDangerAssessment (r : SnowReg) (d : DangerAssessment) : SnowReg :=
  { r with any_obs := true, danger_assessment := some d }

def setIncident (r : SnowReg) (i : Incident) : SnowReg :=
  { r with any_obs := true, incident := some i }

def setNote (r : SnowReg) (n : Note) : SnowReg :=
  { r with any_obs := true, note := some n }

/-- The attachment flattening of `SnowRegistration.serialize`: every
image of every observation type, its own (cleaned) serialization merged
with the constant `GeoHazardTID` and the owning type code. -/
def imagesFlatten (images : List (Int × List ImgItem)) : Except String (List Json) := do
  let nested ← exMapM (fun (kv : Int × List ImgItem) =>
    exMapM (imgEntrySerialize kv.1) kv.2) images
  .ok nested.flatten

def mapSerializeE (f : α → Except String Json) (o : Option (List α)) (what : String) :
    Except String (List Json) := do
  let l ← reqList what o
  exMapM f l

def mapSerialize (f : α → Json) (o : Option (List α)) (what : String) :
    Except String (List Json) := do
  let l ← reqList what o
  .ok (l.map f)

def optSerializeE (f : α → Except String Json) : Option α → Except String Json
  | some x => f x
  | none => .ok .null

def optSerialize (f : α → Json) : Option α → Json
  | some x => f x
  | none => .null

/-- `SnowRegistration.serialize`: flatten the attachments, serialize
every child under its wire key (in the source's dict-literal order),
build the cleaned location sub-object, and clean the top level. -/
def snowRegSerialize (r : SnowReg) : Except String Json := do
  let allImages ← imagesFlatten r.images
  let activities ← mapSerializeE avalancheActivitySerialize r.avalanche_activities
    "avalanche_activities"
  let problems ← mapSerialize avalancheProblemSerialize r.avalanche_problems
    "avalanche_problems"
  let avalancheObs ← optSerializeE avalancheObsSerialize r.avalanche_obs
  let tests ← mapSerialize compressionTestSerialize r.compression_tests
    "compression_tests"
  let dangerSigns ← mapSerialize dangerSignSerialize r.danger_signs "danger_signs"
  let profile ← optSerializeE snowProfileSerialize r.snow_profile
  .ok (.obj (clean [
    ("Attachments", .arr allImages),
    ("AvalancheActivityObs2", .arr activities),
    ("AvalancheEvalProblem2", .arr problems),
    ("AvalancheEvaluation3", optSerialize dangerAssessmentSerialize r.danger_assessment),
    ("AvalancheObs", avalancheObs),
    ("CompressionTest", .arr tests),
    ("DangerObs", .arr dangerSigns),
    ("DtObsTime", jStr r.obs_time),
    ("GeneralObservation", optSerialize noteSerialize r.note),
    ("GeoHazardTID", .num 10),
    ("Incident", optSerialize incidentSerialize r.incident),
    ("ObsLocation", .obj (clean [
      ("Latitude", jNum r.position.lat),
      ("Longitude", jNum r.position.lon),
      ("Uncertainty", jInt r.spatial_precision)])),
    ("SourceTID", jInt r.source),
    ("SnowProfile2", profile),
    ("SnowSurfaceObservation", optSerialize snowCoverSerialize r.snow_cover),
    ("WeatherObservation", optSerialize weatherSerialize r.weather)]))

/-! ## The transport gate (`connection.py`, `SnowConnection.submit`) -/

structure Connection where
  authenticated : Bool
  tokenFresh : Bool
deriving DecidableEq

inductive SubmitError where
  | notAuthenticated
  | tokenExpired
  | noObservation
  | serializeFailed (m : String)
deriving DecidableEq

/-- `Connection.submit`, restricted to its pure decision structure: the
authentication check, the token-expiry re-authentication path (modelled
as an opaque outcome), then the `any_obs` gate, and only after it the
serialization (the HTTP POST and image upload around it are transport
I/O outside the core). -/
def submit (c : Connection) (r : SnowReg) : Except SubmitError Json :=
  if !c.authenticated then .error .notAuthenticated
  else if !c.tokenFresh then .error .tokenExpired
  else if !r.any_obs then .error .noObservation
  else match snowRegSerialize r with
    | .ok j => .ok j
    | .error m => .error (.serializeFailed m)

theorem submit_rejects_no_obs (c : Connection) (r : SnowReg)
    (hauth : c.authenticated = true) (hfresh : c.tokenFresh = true)
    (hobs : r.any_obs = false) : submit c r = .error .noObservation := by
  unfold submit
  rw [hauth, hfresh, hobs]
  rfl

/-- C8: every add/set observation method on `SnowRegistration` sets
`any_obs` (for the fallible `add_*` methods: whenever the call returns),
and `submit` on an authenticated, fresh connection rejects a
registration without the flag with a no-observation error, before the
serialization step. -/
theorem claim_C8_any_obs_gate :
    (∀ r x r2, addDangerSign r x = .ok r2 → r2.any_obs = true)
    ∧ (∀ r x, (setAvalancheObs r x).any_obs = true)
    ∧ (∀ r x r2, addAvalancheActivity r x = .ok r2 → r2.any_obs = true)
    ∧ (∀ r x, (setWeather r x).any_obs = true)
    ∧ (∀ r x, (setSnowCover r x).any_obs = true)
    ∧ (∀ r x r2, addCompressionTest r x = .ok r2 → r2.any_obs = true)
    ∧ (∀ r x, (setSnowProfile r x).any_obs = true)
    ∧ (∀ r x r2, addAvalancheProblem r x = .ok r2 → r2.any_obs = true)
    ∧ (∀ r x, (setDangerAssessment r x).any_obs = true)
    ∧ (∀ r x, (setIncident r x).any_obs = true)
    ∧ (∀ r x, (setNote r x).any_obs = true)
    ∧ (∀ c r, c.authenticated = true → c.tokenFresh = true → r.any_obs = false →
        submit c r = .error .noObservation) := by
  refine ⟨?_, fun r x => rfl, ?_, fun r x => rfl, fun r x => rfl, ?_, fun r x => rfl,
    ?_, fun r x => rfl, fun r x => rfl, fun r x => rfl, submit_rejects_no_obs⟩
  · intro r x r2 h
    unfold addDangerSign at h
    split at h
    · injection h with h
      subst h
      rfl
    · exact absurd h (by simp)
  · intro r x r2 h
    unfold addAvalancheActivity at h
    split at h
    · injection h with h
      subst h
      rfl
    · exact absurd h (by simp)
  · intro r x r2 h
    unfold addCompressionTest at h
    split at h
    · injection h with h
      subst h
      rfl
    · exact absurd h (by simp)
  · intro r x r2 h
    unfold addAvalancheProblem at h
    split at h
    · split at h
      · exact absurd h (by simp)
      · injection h with h
        subst h
        rfl
    · exact absurd h (by simp)

def demoPos : Position := ⟨some 68, some 18⟩

def demoRegBase : SnowReg := snowRegInit (some "2021-03-01T10:00:00+01:00") demoPos none none

def demoDangerSign : DangerSign := ⟨some 3, none⟩

/-- The builder-pattern registration of the end-to-end scenario: one
whumpf-sound danger sign. -/
def demoReg : SnowReg :=
  match addDangerSign demoRegBase demoDangerSign with
  | .ok r => r
  | .error _ => demoRegBase

/-- Witness for C8: the demo add call sets the flag; the untouched base
registration is rejected. -/
theorem claim_C8_any_obs_gate_witness :
    (addDangerSign demoRegBase demoDangerSign = .ok demoReg ∧ demoReg.any_obs = true)
    ∧ submit ⟨true, true⟩ demoRegBase = .error .noObservation := by
  refine ⟨⟨rfl, claim_C8_any_obs_gate.1 demoRegBase demoDangerSign demoReg rfl⟩, ?_⟩
  exact claim_C8_any_obs_gate.2.2.2.2.2.2.2.2.2.2.2 ⟨true, true⟩ demoRegBase rfl rfl rfl

/-! ## C6: serialized wire objects carry no null and no empty-list keys -/

theorem noNulls_arr_map (f : α → Json) (l : List α) (h : ∀ x, noNulls (f x) = true) :
    noNulls (.arr (l.map f)) = true := by
  refine noNullsArr_of_forall _ ?_
  intro j hj
  simp only [List.mem_map] at hj
  obtain ⟨x, _, rfl⟩ := hj
  exact h x

theorem noNullsObj_mem {l : List (String × Json)} (hno : noNullsObj l = true)
    {kv : String × Json} (hkv : kv ∈ l) : noNulls kv.2 = true := by
  induction l with
  | nil => exact absurd hkv (by simp)
  | cons h2 t ih =>
    simp only [noNullsObj, Bool.and_eq_true] at hno
    cases hkv with
    | head => exact hno.1.2
    | tail _ h => exact ih hno.2 h

theorem noNulls_urlSerialize (u : Url) : noNulls (urlSerialize u) = true := by
  refine noNullsObj_clean _ ?_
  intro kv hkv
  simp only [List.mem_cons, List.not_mem_nil, or_false] at hkv
  rcases hkv with rfl | rfl
  · exact noNulls_jStr _
  · exact noNulls_jStr _

theorem noNullsObj_imageSerializeObj (i : Image) :
    noNullsObj (imageSerializeObj i) = true := by
  refine noNullsObj_clean _ ?_
  intro kv hkv
  simp only [List.mem_cons, List.not_mem_nil, or_false] at hkv
  rcases hkv with rfl | rfl | rfl | rfl | rfl | rfl
  · exact noNulls_jStr _
  · exact noNulls_jInt _
  · rfl
  · exact noNulls_jStr _
  · exact noNulls_jStr _
  · exact noNulls_jStr _

theorem noNulls_dangerSignSerialize (d : DangerSign) : noNulls (dangerSignSerialize d) = true := by
  refine noNullsObj_clean _ ?_
  intro kv hkv
  simp only [List.mem_cons, List.not_mem_nil, or_false] at hkv
  rcases hkv with rfl | rfl
  · rfl
  · exact noNulls_jStr _

theorem noNulls_avalancheObsSerialize {o : AvalancheObs} {j : Json}
    (h : avalancheObsSerialize o = .ok j) : noNulls j = true := by
  unfold avalancheObsSerialize at h
  obtain ⟨t, _, h⟩ := except_bind_eq_ok h
  injection h with h
  subst h
  refine noNullsObj_clean _ ?_
  intro kv hkv
  simp only [List.mem_cons, List.not_mem_nil, or_false] at hkv
  rcases hkv with rfl | rfl | rfl | rfl | rfl | rfl | rfl | rfl | rfl | rfl | rfl | rfl |
    rfl | rfl | rfl
  · exact noNulls_jInt _
  · exact noNulls_jInt _
  · exact noNulls_jInt _
  · exact noNulls_jStr _
  · exact noNulls_jInt _
  · rfl
  · exact noNulls_jInt _
  · exact noNulls_jInt _
  · exact noNulls_jNum _
  · exact noNulls_jNum _
  · exact noNulls_jNum _
  · exact noNulls_jNum _
  · exact noNulls_jInt _
  · exact noNulls_jStr _
  · exact noNulls_jStr _

theorem noNulls_elevationSerialize (e : Elevation) :
    noNullsObj (elevationSerialize e) = true := by
  refine noNullsObj_clean _ ?_
  intro kv hkv
  simp only [List.mem_cons, List.not_mem_nil, or_false] at hkv
  rcases hkv with rfl | rfl | rfl
  · exact noNulls_jInt _
  · exact noNulls_jInt _
  · exact noNulls_jInt _

theorem noNulls_avalancheActivitySerialize {a : AvalancheActivity} {j : Json}
    (h : avalancheActivitySerialize a = .ok j) : noNulls j = true := by
  unfold avalancheActivitySerialize at h
  obtain ⟨e1, _, h⟩ := except_bind_eq_ok h
  obtain ⟨s1, _, h⟩ := except_bind_eq_ok h
  injection h with h
  subst h
  refine noNullsObj_clean _ ?_
  intro kv hkv
  have hbase : ∀ kv2 ∈ [
      ("AvalPropagationTID", jInt a.distribution),
      ("AvalTriggerSimpleTID", jInt a.sensitivity),
      ("AvalancheExtTID", jInt a.avalanche_type),
      ("Comment", jStr a.comment),
      ("DestructiveSizeTID", jInt a.size),
      ("DtEnd", Json.str e1),
      ("DtStart", Json.str s1),
      ("EstimatedNumTID", jInt a.quantity),
      ("ValidExposition", jStr (a.expositions.map expositionsSerialize))],
      noNulls kv2.2 = true := by
    intro kv2 hkv2
    simp only [List.mem_cons, List.not_mem_nil, or_false] at hkv2
    rcases hkv2 with rfl | rfl | rfl | rfl | rfl | rfl | rfl | rfl | rfl
    · exact noNulls_jInt _
    · exact noNulls_jInt _
    · exact noNulls_jInt _
    · exact noNulls_jStr _
    · exact noNulls_jInt _
    · rfl
    · rfl
    · exact noNulls_jInt _
    · exact noNulls_jStr _
  cases he : a.elevation with
  | none =>
    rw [he] at hkv
    exact hbase kv hkv
  | some e =>
    rw [he] at hkv
    rw [List.mem_append] at hkv
    rcases hkv with hkv | hkv
    · exact hbase kv hkv
    · exact noNullsObj_mem (noNulls_elevationSerialize e) hkv

theorem noNulls_flagVal (v : Int) (o : Option Bool) : noNulls (flagVal v o) = true := by
  unfold flagVal
  split <;> rfl

theorem noNulls_weatherSerialize (w : Weather) : noNulls (weatherSerialize w) = true := by
  refine noNullsObj_clean _ ?_
  intro kv hkv
  simp only [List.mem_cons, List.not_mem_nil, or_false] at hkv
  rcases hkv with rfl | rfl | rfl | rfl | rfl | rfl
  · exact noNulls_jNum _
  · exact noNulls_jInt _
  · exact noNulls_jStr _
  · exact noNulls_jInt _
  · exact noNulls_jInt _
  · exact noNulls_jNum _

theorem noNulls_snowCoverSerialize (c : SnowCover) : noNulls (snowCoverSerialize c) = true := by
  refine noNullsObj_clean _ ?_
  intro kv hkv
  simp only [List.mem_cons, List.not_mem_nil, or_false] at hkv
  rcases hkv with rfl | rfl | rfl | rfl | rfl | rfl | rfl | rfl | rfl
  · exact noNulls_jStr _
  · exact noNulls_jNum _
  · exact noNulls_jNum _
  · exact noNulls_jInt _
  · exact noNulls_jNum _
  · exact noNulls_jInt _
  · exact noNulls_jInt _
  · exact noNulls_jInt _
  · exact noNulls_jInt _

theorem noNulls_compressionTestSerialize (t : CompressionTest) :
    noNulls (compressionTestSerialize t) = true := by
  refine noNullsObj_clean _ ?_
  intro kv hkv
  simp only [List.mem_cons, List.not_mem_nil, or_false] at hkv
  rcases hkv with rfl | rfl | rfl | rfl | rfl | rfl | rfl
  · exact noNulls_jInt _
  · exact noNulls_jInt _
  · exact noNulls_jInt _
  · exact noNulls_jInt _
  · exact noNulls_jNum _
  · exact noNulls_jBool _
  · exact noNulls_jStr _

theorem noNulls_snowLayerSerialize (l : SnowLayer) : noNulls (snowLayerSerialize l) = true := by
  refine noNullsObj_clean _ ?_
  intro kv hkv
  simp only [List.mem_cons, List.not_mem_nil, or_false] at hkv
  rcases hkv with rfl | rfl | rfl | rfl | rfl | rfl | rfl | rfl | rfl | rfl
  · exact noNulls_jNum _
  · exact noNulls_jInt _
  · exact noNulls_jInt _
  · exact noNulls_jNum _
  · exact noNulls_jInt _
  · exact noNulls_jInt _
  · exact noNulls_jInt _
  · exact noNulls_jNum _
  · exact noNulls_jInt _
  · exact noNulls_jStr _

theorem noNulls_snowTempSerialize (t : SnowTemp) : noNulls (snowTempSerialize t) = true := by
  refine noNullsObj_clean _ ?_
  intro kv hkv
  simp only [List.mem_cons, List.not_mem_nil, or_false] at hkv
  rcases hkv with rfl | rfl
  · exact noNulls_jNum _
  · exact noNulls_jNum _

theorem noNulls_snowDensitySerialize (d : SnowDensity) :
    noNulls (snowDensitySerialize d) = true := by
  refine noNullsObj_clean _ ?_
  intro kv hkv
  simp only [List.mem_cons, List.not_mem_nil, or_false] at hkv
  rcases hkv with rfl | rfl
  · exact noNulls_jNum _
  · exact noNulls_jNum _

theorem noNulls_snowProfileSerialize {p : SnowProfile} {j : Json}
    (h : snowProfileSerialize p = .ok j) : noNulls j = true := by
  unfold snowProfileSerialize at h
  obtain ⟨ls, _, h⟩ := except_bind_eq_ok h
  obtain ⟨ts, _, h⟩ := except_bind_eq_ok h
  obtain ⟨ds, _, h⟩ := except_bind_eq_ok h
  injection h with h
  subst h
  refine noNullsObj_clean _ ?_
  intro kv hkv
  simp only [List.mem_cons, List.not_mem_nil, or_false] at hkv
  rcases hkv with rfl | rfl | rfl | rfl | rfl
  · refine noNullsObj_clean _ ?_
    intro kv2 hkv2
    simp only [List.mem_cons, List.not_mem_nil, or_false] at hkv2
    rcases hkv2 with rfl
    exact noNulls_arr_map _ _ noNulls_snowLayerSerialize
  · refine noNullsObj_clean _ ?_
    intro kv2 hkv2
    simp only [List.mem_cons, List.not_mem_nil, or_false] at hkv2
    rcases hkv2 with rfl
    exact noNulls_arr_map _ _ noNulls_snowTempSerialize
  · dsimp only
    split
    · refine noNullsArr_of_forall _ ?_
      intro j2 hj2
      simp only [List.mem_singleton] at hj2
      subst hj2
      refine noNullsObj_clean _ ?_
      intro kv2 hkv2
      simp only [List.mem_cons, List.not_mem_nil, or_false] at hkv2
      rcases hkv2 with rfl
      exact noNulls_arr_map _ _ noNulls_snowDensitySerialize
    · rfl
  · exact noNulls_jBool _
  · exact noNulls_jStr _

theorem noNulls_avalancheProblemSerialize (p : AvalancheProblem) :
    noNulls (avalancheProblemSerialize p) = true := by
  unfold avalancheProblemSerialize
  refine noNullsObj_clean _ ?_
  intro kv hkv
  have hbase : ∀ kv2 ∈ [
      ("AvalCauseTID", jInt p.weak_layer),
      ("AvalCauseDepthTID", jInt p.layer_depth),
      ("AvalCauseAttributeLightTID", flagVal 1 p.is_easy_propagation),
      ("AvalCauseAttributeThinTID", flagVal 2 p.is_layer_thin),
      ("AvalCauseAttributeSoftTID", flagVal 4 p.is_soft_slab_above),
      ("AvalCauseAttributeCrystalTID", flagVal 8 p.is_large_crystals),
      ("AvalancheExtTID", jInt p.avalanche_type),
      ("AvalTriggerSimpleTID", jInt p.sensitivity),
      ("DestructiveSizeTID", jInt p.size),
      ("AvalPropagationTID", jInt p.distribution),
      ("Comment", jStr p.comment),
      ("ValidExposition", jStr (p.expositions.map expositionsSerialize))],
      noNulls kv2.2 = true := by
    intro kv2 hkv2
    simp only [List.mem_cons, List.not_mem_nil, or_false] at hkv2
    rcases hkv2 with rfl | rfl | rfl | rfl | rfl | rfl | rfl | rfl | rfl | rfl | rfl | rfl
    · exact noNulls_jInt _
    · exact noNulls_jInt _
    · exact noNulls_flagVal _ _
    · exact noNulls_flagVal _ _
    · exact noNulls_flagVal _ _
    · exact noNulls_flagVal _ _
    · exact noNulls_jInt _
    · exact noNulls_jInt _
    · exact noNulls_jInt _
    · exact noNulls_jInt _
    · exact noNulls_jStr _
    · exact noNulls_jStr _
  cases he : p.elevation with
  | none =>
    rw [he] at hkv
    exact hbase kv hkv
  | some e =>
    rw [he] at hkv
    rw [List.mem_append] at hkv
    rcases hkv with hkv | hkv
    · exact hbase kv hkv
    · exact noNullsObj_mem (noNulls_elevationSerialize e) hkv

theorem noNulls_dangerAssessmentSerialize (d : DangerAssessment) :
    noNulls (dangerAssessmentSerialize d) = true := by
  refine noNullsObj_clean _ ?_
  intro kv hkv
  simp only [List.mem_cons, List.not_mem_nil, or_false] at hkv
  rcases hkv with rfl | rfl | rfl | rfl | rfl
  · exact noNulls_jInt _
  · exact noNulls_jInt _
  · exact noNulls_jStr _
  · exact noNulls_jStr _
  · exact noNulls_jStr _

theorem noNulls_incidentSerialize (i : Incident) : noNulls (incidentSerialize i) = true := by
  refine noNullsObj_clean _ ?_
  intro kv hkv
  simp only [List.mem_cons, List.not_mem_nil, or_false] at hkv
  rcases hkv with rfl | rfl | rfl | rfl
  · exact noNulls_jInt _
  · exact noNulls_jStr _
  · exact noNulls_jInt _
  · exact noNulls_arr_map _ _ noNulls_urlSerialize

theorem noNulls_noteSerialize (n : Note) : noNulls (noteSerialize n) = true := by
  refine noNullsObj_clean _ ?_
  intro kv hkv
  simp only [List.mem_cons, List.not_mem_nil, or_false] at hkv
  rcases hkv with rfl | rfl
  · exact noNulls_jStr _
  · exact noNulls_arr_map _ _ noNulls_urlSerialize

theorem exMapM_ok_forall {f : α → Except ε β} :
    ∀ {l : List α} {out : List β}, exMapM f l = .ok out →
    ∀ y ∈ out, ∃ x ∈ l, f x = .ok y := by
  intro l
  induction l with
  | nil =>
    intro out h y hy
    have h2 : Except.ok (ε := ε) ([] : List β) = .ok out := h
    injection h2 with h2
    subst h2
    exact absurd hy (by simp)
  | cons a t ih =>
    intro out h y hy
    unfold exMapM at h
    obtain ⟨b, hb, h⟩ := except_bind_eq_ok h
    obtain ⟨bs, hbs, h⟩ := except_bind_eq_ok h
    have h2 : Except.ok (ε := ε) (b :: bs) = .ok out := h
    injection h2 with h2
    subst h2
    cases hy with
    | head => exact ⟨a, by simp, hb⟩
    | tail _ hy =>
      obtain ⟨x, hx, hfx⟩ := ih hbs y hy
      exact ⟨x, by simp [hx], hfx⟩

theorem noNulls_imgEntrySerialize {t : Int} {img : ImgItem} {j : Json}
    (h : imgEntrySerialize t img = .ok j) : noNulls j = true := by
  cases img with
  | uploadedImg u => exact absurd h (by simp [imgEntrySerialize])
  | localImg i =>
    unfold imgEntrySerialize at h
    injection h with h
    subst h
    refine noNullsObj_append _ _ (noNullsObj_imageSerializeObj i) ?_
    rfl

theorem noNulls_imagesFlatten {images : List (Int × List ImgItem)} {out : List Json}
    (h : imagesFlatten images = .ok out) : ∀ j ∈ out, noNulls j = true := by
  unfold imagesFlatten at h
  obtain ⟨nested, hn, h⟩ := except_bind_eq_ok h
  injection h with h
  subst h
  intro j hj
  rw [List.mem_flatten] at hj
  obtain ⟨inner, hin, hj⟩ := hj
  obtain ⟨kv, _, hkv⟩ := exMapM_ok_forall hn inner hin
  obtain ⟨img, _, himg⟩ := exMapM_ok_forall hkv j hj
  exact noNulls_imgEntrySerialize himg

theorem mapSerializeE_forall {f : α → Except String Json} {o : Option (List α)}
    {w : String} {out : List Json} (h : mapSerializeE f o w = .ok out)
    (hf : ∀ x j, f x = .ok j → noNulls j = true) : ∀ j ∈ out, noNulls j = true := by
  unfold mapSerializeE at h
  obtain ⟨l, _, h⟩ := except_bind_eq_ok h
  intro j hj
  obtain ⟨x, _, hx⟩ := exMapM_ok_forall h j hj
  exact hf x j hx

theorem mapSerialize_forall {f : α → Json} {o : Option (List α)} {w : String}
    {out : List Json} (h : mapSerialize f o w = .ok out)
    (hf : ∀ x, noNulls (f x) = true) : ∀ j ∈ out, noNulls j = true := by
  unfold mapSerialize at h
  obtain ⟨l, _, h⟩ := except_bind_eq_ok h
  injection h with h
  subst h
  intro j hj
  rw [List.mem_map] at hj
  obtain ⟨x, _, rfl⟩ := hj
  exact hf x

theorem optSerializeE_noNulls {f : α → Except String Json} {o : Option α} {j : Json}
    (h : optSerializeE f o = .ok j)
    (hf : ∀ x j2, f x = .ok j2 → noNulls j2 = true) : noNulls j = true := by
  cases o with
  | none =>
    have h2 : Except.ok (ε := String) Json.null = .ok j := h
    injection h2 with h2
    subst h2
    rfl
  | some x => exact hf x j h

theorem optSerialize_noNulls {f : α → Json} (o : Option α)
    (hf : ∀ x, noNulls (f x) = true) : noNulls (optSerialize f o) = true := by
  cases o with
  | none => rfl
  | some x => exact hf x

/-- C6: every wire object a successful `SnowRegistration.serialize`
produces contains, recursively, no key bound to null and no key bound to
an empty list; and the end-to-end scenario — one whumpf-sound danger
sign — serializes to exactly the four keys DangerObs, DtObsTime,
GeoHazardTID and ObsLocation, with every untouched optional child
omitted. -/
theorem claim_C6_clean_serialization :
    (∀ r j, snowRegSerialize r = .ok j → noNulls j = true)
    ∧ snowRegSerialize demoReg = .ok (.obj [
        ("DangerObs", .arr [.obj [("DangerSignTID", .num ((3 : Int) : ℚ))]]),
        ("DtObsTime", .str "2021-03-01T10:00:00+01:00"),
        ("GeoHazardTID", .num 10),
        ("ObsLocation", .obj [("Latitude", .num 68), ("Longitude", .num 18)])]) := by
  constructor
  · intro r j h
    unfold snowRegSerialize at h
    obtain ⟨allImages, hImg, h⟩ := except_bind_eq_ok h
    obtain ⟨activities, hAct, h⟩ := except_bind_eq_ok h
    obtain ⟨problems, hProb, h⟩ := except_bind_eq_ok h
    obtain ⟨avalancheObs, hObs, h⟩ := except_bind_eq_ok h
    obtain ⟨tests, hTests, h⟩ := except_bind_eq_ok h
    obtain ⟨dangerSigns, hSigns, h⟩ := except_bind_eq_ok h
    obtain ⟨profile, hProf, h⟩ := except_bind_eq_ok h
    injection h with h
    subst h
    refine noNullsObj_clean _ ?_
    intro kv hkv
    simp only [List.mem_cons, List.not_mem_nil, or_false] at hkv
    rcases hkv with rfl | rfl | rfl | rfl | rfl | rfl | rfl | rfl | rfl | rfl | rfl | rfl |
      rfl | rfl | rfl | rfl
    · exact noNullsArr_of_forall _ (noNulls_imagesFlatten hImg)
    · exact noNullsArr_of_forall _
        (mapSerializeE_forall hAct (fun x j2 h2 => noNulls_avalancheActivitySerialize h2))
    · exact noNullsArr_of_forall _
        (mapSerialize_forall hProb noNulls_avalancheProblemSerialize)
    · exact optSerialize_noNulls _ noNulls_dangerAssessmentSerialize
    · exact optSerializeE_noNulls hObs (fun x j2 h2 => noNulls_avalancheObsSerialize h2)
    · exact noNullsArr_of_forall _
        (mapSerialize_forall hTests noNulls_compressionTestSerialize)
    · exact noNullsArr_of_forall _ (mapSerialize_forall hSigns noNulls_dangerSignSerialize)
    · exact noNulls_jStr _
    · exact optSerialize_noNulls _ noNulls_noteSerialize
    · rfl
    · exact optSerialize_noNulls _ noNulls_incidentSerialize
    · refine noNullsObj_clean _ ?_
      intro kv2 hkv2
      simp only [List.mem_cons, List.not_mem_nil, or_false] at hkv2
      rcases hkv2 with rfl | rfl | rfl
      · exact noNulls_jNum _
      · exact noNulls_jNum _
      · exact noNulls_jInt _
    · exact noNulls_jInt _
    · exact optSerializeE_noNulls hProf (fun x j2 h2 => noNulls_snowProfileSerialize h2)
    · exact optSerialize_noNulls _ noNulls_snowCoverSerialize
    · exact optSerialize_noNulls _ noNulls_weatherSerialize
  · rfl

/-- Witness for C6: the general no-null property applied to the
scenario's own wire object. -/
theorem claim_C6_clean_serialization_witness :
    ∃ j, snowRegSerialize demoReg = .ok j ∧ noNulls j = true := by
  exact ⟨_, claim_C6_clean_serialization.2,
    claim_C6_clean_serialization.1 demoReg _ claim_C6_clean_serialization.2⟩

/-! ## Deserialization (`Deserializable._convert` / `_apply` and the
record `deserialize` methods)

`_convert(json, idx, target)` reads `json[idx] if idx in json else None`
(wire null also becomes `None`), applies the target coercion, and for an
enum target falls back to `int(elem)` on `ValueError`. Non-numeric wire
values under numeric keys are modelled as decode errors (Python's
`int()`/`str()` string coercions are elided; they never arise on wire
data produced by this library). -/

abbrev JObj := List (String × Json)

def odSLookup (o : JObj) (k : String) : Option Json :=
  (o.find? (fun kv => kv.1 == k)).map Prod.snd

/-- `json[idx] if idx in json else None`, with wire null read as `None`. -/
def jGet (o : JObj) (k : String) : Option Json :=
  match odSLookup o k with
  | some .null => none
  | some v => some v
  | none => none

def jIsNull : Json → Bool
  | .null => true
  | _ => false

def asObj (what : String) : Json → Except String JObj
  | .obj o => .ok o
  | _ => .error ("TypeError: " ++ what ++ " is not an object")

def cvtInt (o : JObj) (k : String) : Except String (Option Int) :=
  match jGet o k with
  | none => .ok none
  | some (.num q) => .ok (some (pyInt q))
  | some (.bool b) => .ok (some (if b then 1 else 0))
  | some _ => .error "modelled: int() of non-numeric wire value"

def cvtQ (o : JObj) (k : String) : Except String (Option ℚ) :=
  match jGet o k with
  | none => .ok none
  | some (.num q) => .ok (some q)
  | some (.bool b) => .ok (some (if b then 1 else 0))
  | some _ => .error "modelled: float() of non-numeric wire value"

/-- Enum coercion with the raw-integer fallback: a wire number equal to a
member of the vocabulary is kept; anything else degrades to `int(elem)`. -/
def cvtEnum (vocab : List Int) (o : JObj) (k : String) : Except String (Option Int) :=
  match jGet o k with
  | none => .ok none
  | some (.num q) => .ok (some (if q.den = 1 ∧ q.num ∈ vocab then q.num else pyInt q))
  | some _ => .error "modelled: enum lookup of non-numeric wire value"

def cvtStr (o : JObj) (k : String) : Except String (Option String) :=
  match jGet o k with
  | none => .ok none
  | some (.str s) => .ok (some s)
  | some _ => .error "modelled: str() coercion of non-string wire value elided"

def cvtBool (o : JObj) (k : String) : Except String (Option Bool) :=
  match jGet o k with
  | none => .ok none
  | some .null => .ok none
  | some (.bool b) => .ok (some b)
  | some (.num q) => .ok (some (q != 0))
  | some (.str s) => .ok (some (!s.isEmpty))
  | some (.arr l) => .ok (some (!l.isEmpty))
  | some (.obj l) => .ok (some (!l.isEmpty))

def applyQ (f : ℚ → ℚ) (o : JObj) (k : String) : Except String (Option ℚ) :=
  match jGet o k with
  | none => .ok none
  | some (.num q) => .ok (some (f q))
  | some _ => .error "TypeError: unsupported operand type"

/-- `_apply` with `datetime.fromisoformat`: datetimes are modelled by
their ISO strings, so the parse is the identity on strings. -/
def applyStr (o : JObj) (k : String) : Except String (Option String) :=
  match jGet o k with
  | none => .ok none
  | some (.str s) => .ok (some s)
  | some _ => .error "TypeError: fromisoformat argument must be str"

def optDeser (o : JObj) (k : String) (f : Json → Except String α) :
    Except String (Option α) :=
  match jGet o k with
  | none => .ok none
  | some v => (f v).map some

def applyList (o : JObj) (k : String) (f : Json → Except String α) :
    Except String (Option (List α)) :=
  match jGet o k with
  | none => .ok none
  | some (.arr items) => (exMapM f items).map some
  | some _ => .error "TypeError: not iterable"

/-! Enum vocabularies (the member values of each `IntEnum`). -/

def signVocab : List Int := [1, 2, 3, 4, 5, 7, 8, 9, 99]
def avalancheObsTypeVocab : List Int := [10, 12, 11, 20, 22, 21, 27, 30, 40, 99]
def triggerVocab : List Int := [10, 26, 27, 22, 23, 25, 99]
def terrainVocab : List Int := [10, 20, 30, 40, 50, 60, 70, 75, 95, 99]
def destructiveSizeVocab : List Int := [1, 2, 3, 4, 5, 9]
def weakLayerVocab : List Int := [10, 11, 13, 14, 15, 16, 19, 18, 22, 20, 24]
def quantityVocab : List Int := [1, 2, 3, 4, 5]
def activityTypeVocab : List Int := [10, 15, 20, 25, 27, 30, 40]
def sensitivityVocab : List Int := [30, 40, 50, 60, 22]
def distributionVocab : List Int := [1, 2, 3]
def precipitationVocab : List Int := [1, 2, 3, 4, 5, 6, 8]
def driftVocab : List Int := [1, 2, 3, 4]
def surfaceVocab : List Int := [101, 102, 103, 61, 62, 50, 107, 105, 106, 104, 108]
def moistureVocab : List Int := [1, 2, 3, 4, 5, 6]
def testResultVocab : List Int := [21, 22, 23, 24, 5, 11, 12, 13, 14, 15]
def fractureQualityVocab : List Int := [1, 2, 3]
def stabilityVocab : List Int := [1, 2, 3]
def hardnessVocab : List Int :=
  [1, 2, 3, 4, 5, 6, 7, 8, 9, 10, 11, 12, 13, 14, 15, 16, 17, 18, 19, 20, 21]
def grainFormVocab : List Int :=
  [1, 2, 3, 4, 5, 6, 7, 8, 9, 10, 11, 12, 13, 14, 15, 16, 17, 18, 19, 20, 21, 22, 23,
   24, 25, 26, 27, 28, 29, 30, 31, 32, 33, 34, 35, 36, 37, 38, 40, 41, 42, 43, 44, 45, 46]
def wetnessVocab : List Int := [1, 2, 3, 4, 5, 6, 7, 8, 9]
def criticalLayerVocab : List Int := [11, 12, 13]
def layerDepthVocab : List Int := [1, 2, 3]
def problemTypeVocab : List Int := [10, 15, 20, 25]
def dangerLevelVocab : List Int := [1, 2, 3, 4, 5]
def forecastEvaluationVocab : List Int := [1, 2, 3]
def incidentActivityVocab : List Int :=
  [111, 113, 112, 114, 115, 116, 117, 130, 120, 140, 160, 190]
def extentVocab : List Int := [10, 13, 15, 25, 20, 27, 28, 30, 40, 99]
def competenceVocab : List Int := [0, 100, 105, 110, 115, 120, 130, 150]
def spatialPrecisionVocab : List Int := [0, 100, 500, 1000, -1]
def sourceVocab : List Int := [10, 20, 21, 22, 23]
def observationTypeVocab : List Int := [10, 11, 13, 21, 22, 25, 26, 31, 32, 33, 36]
def elevFormatVocab : List Int := [1, 2, 3, 4]

def urlDeserialize (j : Json) : Except String Url := do
  let o ← asObj "url" j
  let u ← cvtStr o "UrlLine"
  let d ← cvtStr o "UrlDescription"
  .ok ⟨u, d⟩

/-- `Note.deserialize`. Note the bare `json["Urls"]` access: unlike every
other field in this module it does not tolerate a missing key. -/
def noteDeserialize (j : Json) : Except String Note := do
  let o ← asObj "note" j
  let comment ← cvtStr o "ObsComment"
  let urls ← (match odSLookup o "Urls" with
    | none => Except.error "KeyError: Urls"
    | some (.arr items) => exMapM urlDeserialize items
    | some .null => Except.error "TypeError: NoneType is not iterable"
    | some _ => Except.error "TypeError: not iterable")
  .ok ⟨comment, urls⟩

/-- `Incident.deserialize`, with the same bare `json["IncidentURLs"]`
access. -/
def incidentDeserialize (j : Json) : Except String Incident := do
  let o ← asObj "incident" j
  let activity ← cvtEnum incidentActivityVocab o "ActivityInfluencedTID"
  let extent ← cvtEnum extentVocab o "DamageExtentTID"
  let comment ← cvtStr o "Comment"
  let urls ← (match odSLookup o "IncidentURLs" with
    | none => Except.error "KeyError: IncidentURLs"
    | some (.arr items) => exMapM urlDeserialize items
    | some .null => Except.error "TypeError: NoneType is not iterable"
    | some _ => Except.error "TypeError: not iterable")
  .ok ⟨activity, extent, comment, urls⟩

def dangerSignDeserialize (j : Json) : Except String DangerSign := do
  let o ← asObj "danger sign" j
  let sign ← cvtEnum signVocab o "DangerSignTID"
  let sign := if sign == some 0 then none else sign
  let comment ← cvtStr o "Comment"
  .ok ⟨sign, comment⟩

/-- `Expositions.deserialize`: reject strings longer than eight
characters, then read each character as a bit (`bool(int(ch))`, a
`ValueError` on a non-digit). -/
def expositionsDeserialize (s : String) : Except String (List Int) :=
  if s.length > 8 then .error "ValueError: Exposition string too long."
  else do
    let bits ← exMapM (fun c =>
      if c.isDigit then Except.ok (c != '0')
      else Except.error "ValueError: invalid literal for int") s.toList
    .ok ((bits.enum.filter (fun p => p.2)).map (fun p => (p.1 : Int)))

/-- `Elevation.deserialize`: no re-rounding, no zero-width guard; the
bounds are just min/max of the raw thresholds. -/
def elevationDeserialize (o : JObj) : Except String Elevation := do
  let fmt ← cvtEnum elevFormatVocab o "ExposedHeightComboTID"
  let elev ← cvtInt o "ExposedHeight1"
  let es ← cvtInt o "ExposedHeight2"
  match es with
  | some esv =>
      match elev with
      | some e => .ok ⟨fmt, some (max e esv), some (min e esv)⟩
      | none => .error "TypeError: NoneType in max"
  | none => .ok ⟨fmt, elev, none⟩

def avalancheObsDeserialize (j : Json) : Except String AvalancheObs := do
  let o ← asObj "avalanche obs" j
  let startLat ← cvtQ o "StartLat"
  let startLon ← cvtQ o "StartLong"
  let stopLat ← cvtQ o "StopLat"
  let stopLon ← cvtQ o "StopLong"
  let start := match startLat, startLon with
    | some la, some lo => some (Position.mk (some la) (some lo))
    | _, _ => none
  let stop := match stopLat, stopLon with
    | some la, some lo => some (Position.mk (some la) (some lo))
    | _, _ => none
  -- the `try/except ValueError` around the exposition extraction
  let exp ← (match jGet o "ValidExposition" with
    | none => Except.ok none
    | some (.str s) =>
        match expositionsDeserialize s with
        | .ok dirs => Except.ok dirs.head?
        | .error _ => Except.ok none
    | some _ => Except.error "TypeError: object has no len")
  let release ← applyStr o "DtAvalancheTime"
  let size ← cvtEnum destructiveSizeVocab o "DestructiveSizeTID"
  let atype ← cvtEnum avalancheObsTypeVocab o "AvalancheTID"
  let trig ← cvtEnum triggerVocab o "AvalancheTriggerTID"
  let terr ← cvtEnum terrainVocab o "TerrainStartZoneTID"
  let weak ← cvtEnum weakLayerVocab o "AvalCauseTID"
  let fh ← cvtInt o "FractureHeight"
  let fw ← cvtInt o "FractureWidth"
  let path ← cvtStr o "Trajectory"
  let comment ← cvtStr o "Comment"
  .ok ⟨release, start, stop, exp, size, atype, trig, terr, weak,
       fh.map (fun v => (v : ℚ)), fw.map (fun v => (v : ℚ)), path, comment⟩

/-- The `ExposedHeightComboTID`/`ExposedHeight1` presence-and-non-null
guard shared by `AvalancheActivity.deserialize` and
`AvalancheProblem.deserialize`. -/
def elevGuard (o : JObj) : Except String (Option Elevation) :=
  match odSLookup o "ExposedHeightComboTID", odSLookup o "ExposedHeight1" with
  | some v1, some v2 =>
      if jIsNull v1 || jIsNull v2 then .ok none
      else (elevationDeserialize o).map some
  | _, _ => .ok none

def avalancheActivityDeserialize (j : Json) : Except String AvalancheActivity := do
  let o ← asObj "avalanche activity" j
  let elev ← elevGuard o
  let start ← applyStr o "DtStart"
  let finish ← applyStr o "DtEnd"
  let quantity ← cvtEnum quantityVocab o "EstimatedNumTID"
  let atype ← cvtEnum activityTypeVocab o "AvalancheExtTID"
  let sens ← cvtEnum sensitivityVocab o "AvalTriggerSimpleTID"
  let size ← cvtEnum destructiveSizeVocab o "DestructiveSizeTID"
  let dist ← cvtEnum distributionVocab o "AvalPropagationTID"
  let exps ← (match jGet o "ValidExposition" with
    | none => Except.ok none
    | some (.str s) => (expositionsDeserialize s).map some
    | some _ => Except.error "TypeError: object has no len")
  let comment ← cvtStr o "Comment"
  .ok ⟨start, finish, quantity, atype, sens, size, dist, elev, exps, comment⟩

def weatherDeserialize (j : Json) : Except String Weather := do
  let o ← asObj "weather" j
  let precipitation ← cvtEnum precipitationVocab o "PrecipitationTID"
  let wind_dir ← (match jGet o "WindDirection" with
    | none => Except.ok none
    | some (.num q) => Except.ok (some (pyRoundQ (q / 45) % 8))
    | some _ => Except.error "TypeError: unsupported operand type")
  let air_temp ← cvtQ o "AirTemperature"
  let wind_speed ← cvtQ o "WindSpeed"
  let cloud ← cvtInt o "CloudCover"
  let comment ← cvtStr o "Comment"
  .ok ⟨precipitation, wind_dir, air_temp, wind_speed, cloud.map (fun v => (v : ℚ)), comment⟩

def snowCoverDeserialize (j : Json) : Except String SnowCover := do
  let o ← asObj "snow cover" j
  let drift ← cvtEnum driftVocab o "SnowDriftTID"
  let surface ← cvtEnum surfaceVocab o "SnowSurfaceTID"
  let moisture ← cvtEnum moistureVocab o "SurfaceWaterContentTID"
  let hn24 ← applyQ (· * 100) o "NewSnowDepth24"
  let new_snow_line ← cvtInt o "NewSnowLine"
  let hs ← applyQ (· * 100) o "SnowDepth"
  let snow_line ← cvtInt o "SnowLine"
  let layered ← cvtInt o "HeightLimitLayeredSnow"
  let comment ← cvtStr o "Comment"
  .ok ⟨drift, surface, moisture, hn24, new_snow_line.map (fun v => (v : ℚ)), hs,
       snow_line.map (fun v => (v : ℚ)), layered.map (fun v => (v : ℚ)), comment⟩

def compressionTestDeserialize (j : Json) : Except String CompressionTest := do
  let o ← asObj "compression test" j
  let tr ← cvtEnum testResultVocab o "PropagationTID"
  let fq ← cvtEnum fractureQualityVocab o "ComprTestFractureTID"
  let st ← cvtEnum stabilityVocab o "StabilityEvalTID"
  let taps ← cvtInt o "TapsFracture"
  let fd ← applyQ (· * 100) o "FractureDepth"
  let ip ← cvtBool o "IncludeInSnowProfile"
  let comment ← cvtStr o "Comment"
  .ok ⟨tr, fq, st, taps, fd, ip, comment⟩

/-- `SnowProfile.Layer.deserialize`. The grain sizes numerically equal
`x * 100` whether or not the `GrainSize(x * 100)` coercion succeeds (the
`try/except ValueError` only changes the Python type). -/
def snowLayerDeserialize (j : Json) : Except String SnowLayer := do
  let o ← asObj "snow layer" j
  let gs ← applyQ (· * 100) o "GrainSizeAvg"
  let gsMax ← applyQ (· * 100) o "GrainSizeAvgMax"
  let thickness ← applyQ (· * 100) o "Thickness"
  let hardness ← cvtEnum hardnessVocab o "HardnessTID"
  let gfp ← cvtEnum grainFormVocab o "GrainFormPrimaryTID"
  let wetness ← cvtEnum wetnessVocab o "WetnessTID"
  let hb ← cvtEnum hardnessVocab o "HardnessBottomTID"
  let gfs ← cvtEnum grainFormVocab o "GrainFormSecondaryTID"
  let critical ← cvtEnum criticalLayerVocab o "CriticalLayerTID"
  let comment ← cvtStr o "Comment"
  .ok ⟨thickness, hardness, gfp, gs, wetness, hb, gfs, gsMax, critical, comment⟩

def snowTempDeserialize (j : Json) : Except String SnowTemp := do
  let o ← asObj "snow temp" j
  let depth ← applyQ (· * 100) o "Depth"
  let temp ← cvtQ o "SnowTemp"
  .ok ⟨depth, temp⟩

def snowDensityDeserialize (j : Json) : Except String SnowDensity := do
  let o ← asObj "snow density" j
  let thickness ← applyQ (· * 100) o "Thickness"
  let density ← cvtQ o "Density"
  .ok ⟨thickness, density⟩

def layersOf (o : JObj) (k : String) (f : Json → Except String α) :
    Except String (Option (List α)) :=
  match odSLookup o k with
  | none => .ok none
  | some .null => .ok none
  | some (.obj so) =>
      (match odSLookup so "Layers" with
       | none => .ok none
       | some .null => .ok none
       | some (.arr items) => (exMapM f items).map some
       | some _ => .error "TypeError: not iterable")
  | some _ => .error "TypeError: not subscriptable"

def snowProfileDeserialize (j : Json) : Except String SnowProfile := do
  let o ← asObj "snow profile" j
  let layers ← layersOf o "StratProfile" snowLayerDeserialize
  let temperatures ← layersOf o "SnowTemp" snowTempDeserialize
  let densities ← (match odSLookup o "SnowDensity" with
    | none => Except.ok none
    | some .null => Except.ok none
    | some (.arr delems) => do
        let lists ← exMapM (fun de =>
          match de with
          | .obj deo =>
              (match odSLookup deo "Layers" with
               | none => Except.ok none
               | some .null => Except.ok none
               | some (.arr items) => (exMapM snowDensityDeserialize items).map some
               | some _ => Except.error "TypeError: not iterable")
          | _ => Except.error "TypeError: not subscriptable") delems
        Except.ok (lists.foldl (fun acc oL =>
          match oL with
          | some items => some (acc.getD [] ++ items)
          | none => acc) none)
    | some _ => Except.error "TypeError: not iterable")
  let ip ← cvtBool o "IsProfileToGround"
  let comment ← cvtStr o "Comment"
  .ok ⟨layers, temperatures, densities, ip, comment⟩

def avalancheProblemDeserialize (j : Json) : Except String AvalancheProblem := do
  let o ← asObj "avalanche problem" j
  let elev ← elevGuard o
  let weak ← cvtEnum weakLayerVocab o "AvalCauseTID"
  let depth ← cvtEnum layerDepthVocab o "AvalCauseDepthTID"
  let atype ← cvtEnum problemTypeVocab o "AvalancheExtTID"
  let sens ← cvtEnum sensitivityVocab o "AvalTriggerSimpleTID"
  let size ← cvtEnum destructiveSizeVocab o "DestructiveSizeTID"
  let dist ← cvtEnum distributionVocab o "AvalPropagationTID"
  let exps ← (match jGet o "ValidExposition" with
    | none => Except.ok none
    | some (.str s) => (expositionsDeserialize s).map some
    | some _ => Except.error "TypeError: object has no len")
  let easy ← cvtBool o "AvalCauseAttributeLightTID"
  let thin ← cvtBool o "AvalCauseAttributeThinTID"
  let soft ← cvtBool o "AvalCauseAttributeSoftTID"
  let crystals ← cvtBool o "AvalCauseAttributeCrystalTID"
  let comment ← cvtStr o "Comment"
  .ok ⟨weak, depth, atype, sens, size, dist, elev, exps, easy, thin, soft, crystals, comment⟩

def dangerAssessmentDeserialize (j : Json) : Except String DangerAssessment := do
  let o ← asObj "danger assessment" j
  let level ← cvtEnum dangerLevelVocab o "AvalancheDangerTID"
  let fe ← cvtEnum forecastEvaluationVocab o "ForecastCorrectTID"
  let da ← cvtStr o "AvalancheEvaluation"
  let dd ← cvtStr o "AvalancheDevelopment"
  let comment ← cvtStr o "ForecastComment"
  .ok ⟨level, fe, da, dd, comment⟩

/-- `UploadedImage.deserialize`. The source's trailing commas wrap
`copyright_holder` and `id` in one-element tuples; the converted values
are modelled. -/
def uploadedImageDeserialize (o : JObj) : Except String UploadedImage := do
  let mime ← cvtStr o "AttachmentMimeType"
  let dir ← (match jGet o "Aspect" with
    | none => Except.ok none
    | some (.num q) => Except.ok (some (pyRoundQ (q / 45) % 8))
    | some _ => Except.error "TypeError: unsupported operand type")
  let photographer ← cvtStr o "Photographer"
  let copyright_holder ← cvtStr o "Copyright"
  let comment ← cvtStr o "Comment"
  let id ← cvtInt o "AttachmentId"
  let url ← cvtStr o "Url"
  .ok ⟨id, url, mime, dir, photographer, copyright_holder, comment⟩

def imgKeyAppend (l : List (Int × List ImgItem)) (t : Int) (img : ImgItem) :
    List (Int × List ImgItem) :=
  match l with
  | [] => [(t, [img])]
  | (k, imgs) :: rest =>
      if k == t then (k, imgs ++ [img]) :: rest
      else (k, imgs) :: imgKeyAppend rest t img

/-- The `Attachments` loop of `SnowRegistration.deserialize`: start from
an empty dict and append each attachment under its `RegistrationTID`
code. An attachment without an integer-coercible `RegistrationTID` is
modelled as a decode failure (in Python it would land under a `None`
dict key, a state no serializable registration can reach). -/
def buildImages (items : List Json) : Except String (List (Int × List ImgItem)) := do
  let pairs ← exMapM (fun item => do
    let io ← asObj "attachment" item
    let t ← cvtEnum observationTypeVocab io "RegistrationTID"
    let tv ← (match t with
      | some tv => Except.ok tv
      | none => Except.error "modelled: attachment without RegistrationTID")
    let u ← uploadedImageDeserialize io
    Except.ok (tv, ImgItem.uploadedImg u)) items
  .ok (pairs.foldl (fun acc p => imgKeyAppend acc p.1 p.2) [])

/-- `SnowRegistration.deserialize`: construct through `__init__` (so
`any_obs` is `False`) and then assign every field directly from the wire
object, without going through the add/set methods. -/
def snowRegDeserialize (j : Json) : Except String SnowReg := do
  let o ← asObj "registration" j
  let obs_time ← applyStr o "DtObsTime"
  let obsLoc ← (match odSLookup o "ObsLocation" with
    | some (.obj lo) => Except.ok lo
    | some _ => Except.error "TypeError: ObsLocation is not an object"
    | none => Except.error "KeyError: ObsLocation")
  let lat ← (match odSLookup obsLoc "Latitude" with
    | some (.num q) => Except.ok (some q)
    | some .null => Except.ok (none : Option ℚ)
    | some _ => Except.error "modelled: non-numeric Latitude"
    | none => Except.error "KeyError: Latitude")
  let lon ← (match odSLookup obsLoc "Longitude" with
    | some (.num q) => Except.ok (some q)
    | some .null => Except.ok (none : Option ℚ)
    | some _ => Except.error "modelled: non-numeric Longitude"
    | none => Except.error "KeyError: Longitude")
  let source ← cvtEnum sourceVocab o "SourceTID"
  let spatial ← cvtEnum spatialPrecisionVocab obsLoc "Uncertainty"
  let base := snowRegInit obs_time ⟨lat, lon⟩ spatial source
  let id ← cvtInt o "RegId"
  let observer ← (match odSLookup o "Observer" with
    | none => Except.ok none
    | some .null => Except.ok none
    | some (.obj oo) => do
        let oid ← cvtInt oo "ObserverID"
        let nick ← cvtStr oo "NickName"
        let comp ← cvtEnum competenceVocab oo "CompetenceLevelTID"
        Except.ok (some (Observer.mk nick oid comp))
    | some _ => Except.error "TypeError: Observer is not an object")
  let danger_signs ← applyList o "DangerObs" dangerSignDeserialize
  let avalanche_obs ← optDeser o "AvalancheObs" avalancheObsDeserialize
  let avalanche_activities ← applyList o "AvalancheActivityObs2" avalancheActivityDeserialize
  let weather ← optDeser o "WeatherObservation" weatherDeserialize
  let snow_cover ← optDeser o "SnowSurfaceObservation" snowCoverDeserialize
  let compression_tests ← applyList o "CompressionTest" compressionTestDeserialize
  let snow_profile ← optDeser o "SnowProfile2" snowProfileDeserialize
  let avalanche_problems ← applyList o "AvalancheEvalProblem2" avalancheProblemDeserialize
  let danger_assessment ← optDeser o "AvalancheEvaluation3" dangerAssessmentDeserialize
  let incident ← optDeser o "Incident" incidentDeserialize
  let note ← optDeser o "GeneralObservation" noteDeserialize
  let images ← (match jGet o "Attachments" with
    | none => Except.ok ([] : List (Int × List ImgItem))
    | some (.arr items) => buildImages items
    | some _ => Except.error "TypeError: not iterable")
  .ok { base with
          id := id,
          observer := observer,
          danger_signs := danger_signs,
          avalanche_obs := avalanche_obs,
          avalanche_activities := avalanche_activities,
          weather := weather,
          snow_cover := snow_cover,
          compression_tests := compression_tests,
          snow_profile := snow_profile,
          avalanche_problems := avalanche_problems,
          danger_assessment := danger_assessment,
          incident := incident,
          note := note,
          images := images }

/-! ## C1: the serialize/deserialize round trip -/

/-- A `Note` as produced by `Note.__init__`: a comment and the empty URL
list every fresh note starts with. -/
def noteC1 : Note := ⟨some "Clear skies, stable snow.", []⟩

/-- An `Incident` as produced by `Incident.__init__` with only a comment:
`urls` starts empty. -/
def incidentC1 : Incident := ⟨none, none, some "Hit by a small sluff.", []⟩

/-- C1: the claimed round trip `deserialize(serialize(record)) == record`
fails outright for `Note` and `Incident` records with no URLs — the state
their constructors produce. `serialize` drops the empty `Urls` /
`IncidentURLs` list in its `_clean` step, and `deserialize` reads that key
back with a bare subscript (`json["Urls"]`, `json["IncidentURLs"]`), so
deserializing the serialization raises `KeyError` instead of returning a
record. -/
theorem claim_C1_roundtrip_keyerror :
    noteSerialize noteC1 = .obj [("ObsComment", .str "Clear skies, stable snow.")]
    ∧ noteDeserialize (noteSerialize noteC1) = .error "KeyError: Urls"
    ∧ incidentSerialize incidentC1 = .obj [("Comment", .str "Hit by a small sluff.")]
    ∧ incidentDeserialize (incidentSerialize incidentC1) = .error "KeyError: IncidentURLs" :=
  ⟨rfl, rfl, rfl, rfl⟩

/-! ## C10: deserialized registrations are not submittable -/

/-- C10: `SnowRegistration.deserialize` builds the registration through
`__init__` (which sets `any_obs = False`) and then assigns every
observation field directly, never through the flag-setting `add_*`/`set_*`
methods — so every accepted wire object yields `any_obs == False`, and an
authenticated, fresh-token `submit` of the result always stops at the
no-observation gate. -/
theorem claim_C10_deserialize_clears_any_obs (j : Json) (r : SnowReg)
    (h : snowRegDeserialize j = .ok r) :
    r.any_obs = false ∧
    ∀ c : Connection, c.authenticated = true → c.tokenFresh = true →
      submit c r = .error .noObservation := by
  have hobs : r.any_obs = false := by
    unfold snowRegDeserialize at h
    obtain ⟨o, _, h⟩ := except_bind_eq_ok h
    obtain ⟨obs_time, _, h⟩ := except_bind_eq_ok h
    obtain ⟨obsLoc, _, h⟩ := except_bind_eq_ok h
    obtain ⟨lat, _, h⟩ := except_bind_eq_ok h
    obtain ⟨lon, _, h⟩ := except_bind_eq_ok h
    obtain ⟨source, _, h⟩ := except_bind_eq_ok h
    obtain ⟨spatial, _, h⟩ := except_bind_eq_ok h
    obtain ⟨id, _, h⟩ := except_bind_eq_ok h
    obtain ⟨observer, _, h⟩ := except_bind_eq_ok h
    obtain ⟨danger_signs, _, h⟩ := except_bind_eq_ok h
    obtain ⟨avalanche_obs, _, h⟩ := except_bind_eq_ok h
    obtain ⟨avalanche_activities, _, h⟩ := except_bind_eq_ok h
    obtain ⟨weather, _, h⟩ := except_bind_eq_ok h
    obtain ⟨snow_cover, _, h⟩ := except_bind_eq_ok h
    obtain ⟨compression_tests, _, h⟩ := except_bind_eq_ok h
    obtain ⟨snow_profile, _, h⟩ := except_bind_eq_ok h
    obtain ⟨avalanche_problems, _, h⟩ := except_bind_eq_ok h
    obtain ⟨danger_assessment, _, h⟩ := except_bind_eq_ok h
    obtain ⟨incident, _, h⟩ := except_bind_eq_ok h
    obtain ⟨note, _, h⟩ := except_bind_eq_ok h
    obtain ⟨images, _, h⟩ := except_bind_eq_ok h
    injection h with h
    subst h
    rfl
  exact ⟨hobs, fun c hc hf => submit_rejects_no_obs c r hc hf hobs⟩

/-- A wire registration carrying a position and a general observation
(note) with an explicit empty `Urls` list, as the remote service would
return it. -/
def demoWire : Json :=
  .obj [("ObsLocation", .obj [("Latitude", .num 68), ("Longitude", .num 18)]),
        ("GeneralObservation", .obj [("ObsComment", .str "Stormy."), ("Urls", .arr [])])]

/-- The registration `demoWire` deserializes to: the note is populated,
yet `any_obs` is `false`. -/
def demoDeserialized : SnowReg :=
  { any_obs := false, obs_time := none, position := ⟨some 68, some 18⟩,
    spatial_precision := none, source := none, id := none, observer := none,
    danger_signs := none, avalanche_obs := none, avalanche_activities := none,
    weather := none, snow_cover := none, compression_tests := none,
    snow_profile := none, avalanche_problems := none, danger_assessment := none,
    incident := none, note := some ⟨some "Stormy.", []⟩, images := [] }

theorem claim_C10_deserialize_clears_any_obs_witness :
    snowRegDeserialize demoWire = Except.ok demoDeserialized ∧
    demoDeserialized.any_obs = false ∧
    submit ⟨true, true⟩ demoDeserialized = Except.error SubmitError.noObservation := by
  refine ⟨rfl, ?_, ?_⟩
  · exact (claim_C10_deserialize_clears_any_obs demoWire demoDeserialized rfl).1
  · exact (claim_C10_deserialize_clears_any_obs demoWire demoDeserialized rfl).2
      ⟨true, true⟩ rfl rfl

end Regobs
